import Mathlib

/-
  Verification development for the lms library-management backend
  (books, patrons, checkouts, holds over a versioned key-value store).

  The Rust sources are shallowly embedded: pure functions become Lean
  functions, the DynamoDB-backed repositories become explicit functions
  over in-memory tables (lists of entities), services thread a
  LibraryState record, timestamps (chrono NaiveDateTime) are modelled as
  Int seconds, Utc::now() becomes an explicit `now` parameter, and
  Uuid::new_v4() becomes an explicit fresh-id parameter.  Fallible code
  returns Except LibraryError.
-/

namespace LMS

/-! ## Core enums, from src/lms/src/core/library.rs -/

/-- BookStatus from core/library.rs. -/
inductive BookStatus where
  | Available
  | CheckedOut
  | OnHold
  | Deleted
  | Unknown
deriving DecidableEq, Repr

/-- Display impl for BookStatus (core/library.rs). -/
def BookStatus.display : BookStatus → String
  | .Available => "Available"
  | .CheckedOut => "CheckedOut"
  | .OnHold => "OnHold"
  | .Deleted => "Deleted"
  | .Unknown => "Unknown"

/-- From String impl for BookStatus (core/library.rs): unrecognized strings map to Unknown. -/
def BookStatus.fromString (s : String) : BookStatus :=
  if s = "Available" then .Available
  else if s = "CheckedOut" then .CheckedOut
  else if s = "OnHold" then .OnHold
  else if s = "Deleted" then .Deleted
  else .Unknown

/-- Role from core/library.rs. -/
inductive Role where
  | Admin
  | Regular
  | Child
  | Employee
  | Librarian
deriving DecidableEq, Repr

/-- Display impl for Role (core/library.rs). -/
def Role.display : Role → String
  | .Admin => "Admin"
  | .Regular => "Regular"
  | .Child => "Child"
  | .Employee => "Employee"
  | .Librarian => "Librarian"

/-- From String impl for Role (core/library.rs): unrecognized strings map to Regular. -/
def Role.fromString (s : String) : Role :=
  if s = "Admin" then .Admin
  else if s = "Regular" then .Regular
  else if s = "Child" then .Child
  else if s = "Employee" then .Employee
  else if s = "Librarian" then .Librarian
  else .Regular

/-- CheckoutStatus from core/library.rs. -/
inductive CheckoutStatus where
  | CheckedOut
  | Returned
deriving DecidableEq, Repr

/-- Display impl for CheckoutStatus (core/library.rs). -/
def CheckoutStatus.display : CheckoutStatus → String
  | .CheckedOut => "CheckedOut"
  | .Returned => "Returned"

/-- From String impl for CheckoutStatus (core/library.rs): unrecognized strings map to CheckedOut. -/
def CheckoutStatus.fromString (s : String) : CheckoutStatus :=
  if s = "CheckedOut" then .CheckedOut
  else if s = "Returned" then .Returned
  else .CheckedOut

/-- HoldStatus from core/library.rs. -/
inductive HoldStatus where
  | OnHold
  | Waiting
  | CheckedOut
  | Canceled
deriving DecidableEq, Repr

/-- Display impl for HoldStatus (core/library.rs). -/
def HoldStatus.display : HoldStatus → String
  | .OnHold => "OnHold"
  | .Waiting => "Waiting"
  | .CheckedOut => "CheckedOut"
  | .Canceled => "Canceled"

/-- From String impl for HoldStatus (core/library.rs): unrecognized strings map to OnHold. -/
def HoldStatus.fromString (s : String) : HoldStatus :=
  if s = "OnHold" then .OnHold
  else if s = "Waiting" then .Waiting
  else if s = "CheckedOut" then .CheckedOut
  else if s = "Canceled" then .Canceled
  else .OnHold

/-- PartyKind from core/library.rs. -/
inductive PartyKind where
  | Patron
  | Employee
  | Branch
  | Organization
deriving DecidableEq, Repr

/-- Display impl for PartyKind (core/library.rs). -/
def PartyKind.display : PartyKind → String
  | .Patron => "Patron"
  | .Employee => "Employee"
  | .Branch => "Branch"
  | .Organization => "Organization"

/-- From String impl for PartyKind (core/library.rs): unrecognized strings map to Patron. -/
def PartyKind.fromString (s : String) : PartyKind :=
  if s = "Patron" then .Patron
  else if s = "Employee" then .Employee
  else if s = "Branch" then .Branch
  else if s = "Organization" then .Organization
  else .Patron

/-! ## Substring search helper (models Rust str::contains as used in library.rs) -/

/-- leadsWith l sub is true when sub occurs at the start of l. -/
def leadsWith : List Char → List Char → Bool
  | _, [] => true
  | [], _ :: _ => false
  | a :: as, b :: bs => (a == b) && leadsWith as bs

/-- containsSub l sub is true when sub occurs contiguously anywhere in l. -/
def containsSub : List Char → List Char → Bool
  | [], sub => sub.isEmpty
  | l@(_ :: rest), sub => leadsWith l sub || containsSub rest sub

/-- strContainsSub models Rust str::contains for plain substrings. -/
def strContainsSub (s sub : String) : Bool :=
  containsSub s.toList sub.toList

/-! ## Error taxonomy, from src/lms/src/core/library.rs -/

/-- LibraryError enum from core/library.rs. -/
inductive LibraryError where
  | Database (message : String) (reason_code : Option String) (retryable : Bool)
  | AccessDenied (message : String) (reason_code : Option String)
  | NotGranted (message : String) (reason_code : Option String)
  | DuplicateKey (message : String)
  | NotFound (message : String)
  | CurrentlyUnavailable (message : String) (reason_code : Option String) (retryable : Bool)
  | Validation (message : String) (reason_code : Option String)
  | Serialization (message : String)
  | Runtime (message : String) (reason_code : Option String)
deriving DecidableEq, Repr

/-- LibraryError::validation helper constructor (core/library.rs). -/
def LibraryError.validation (message : String) (reason_code : Option String) : LibraryError :=
  .Validation message reason_code

/-- LibraryError::not_found helper constructor (core/library.rs). -/
def LibraryError.not_found (message : String) : LibraryError :=
  .NotFound message

/-- LibraryError::database helper constructor (core/library.rs). -/
def LibraryError.database (message : String) (reason_code : Option String) (retryable : Bool) :
    LibraryError :=
  .Database message reason_code retryable

/-- LibraryError::unavailable helper constructor (core/library.rs). -/
def LibraryError.unavailable (message : String) (reason_code : Option String) (retryable : Bool) :
    LibraryError :=
  .CurrentlyUnavailable message reason_code retryable

/-- LibraryError::access_denied helper constructor (core/library.rs). -/
def LibraryError.access_denied (message : String) (reason_code : Option String) : LibraryError :=
  .AccessDenied message reason_code

/-- LibraryError::retryable from core/library.rs. -/
def LibraryError.retryable : LibraryError → Bool
  | .Database _ _ r => r
  | .AccessDenied _ _ => false
  | .NotGranted _ _ => false
  | .DuplicateKey _ => false
  | .NotFound _ => false
  | .CurrentlyUnavailable _ _ r => r
  | .Validation _ _ => false
  | .Serialization _ => false
  | .Runtime _ _ => false

/-- LibraryError::database_or_unavailable from core/library.rs.  The message
    formatting interpolates the reason with Debug formatting in Rust; here the
    reason is appended in a simplified textual form, which no verified property
    inspects. -/
def LibraryError.database_or_unavailable (message : String) (reason : Option String)
    (retryable : Bool) : LibraryError :=
  if retryable then
    LibraryError.unavailable ("ddb database unavailable error " ++ message) reason true
  else
    match reason with
    | some reason_val =>
      if strContainsSub reason_val "404" then
        LibraryError.not_found ("not found error " ++ message)
      else if strContainsSub reason_val "400" then
        LibraryError.access_denied ("access-denied error " ++ message) reason
      else
        LibraryError.database ("ddb database error " ++ message) reason false
    | none =>
      LibraryError.database ("ddb database error " ++ message) reason false

/-! ## SDK error classification, from src/lms/src/utils/ddb.rs -/

/-- Model of aws SdkError as consumed by retryable_sdk_error in utils/ddb.rs.
    A ServiceError carries the HTTP status code and the raw response body
    bytes (as a list of byte values). -/
inductive SdkErrorKind where
  | ConstructionFailure
  | TimeoutKind
  | DispatchFailure
  | ResponseKind
  | ServiceError (status : Nat) (body : Option (List Nat))
deriving DecidableEq, Repr

/-- Models http StatusCode is_server_error: 500..=599. -/
def is_server_error (status : Nat) : Bool :=
  500 ≤ status && status ≤ 599

/-- Models http StatusCode Display, which renders the numeric code followed by
    the canonical reason phrase; only the digits matter to the downstream
    substring checks, so the reason phrase is elided. -/
def status_display (status : Nat) : String :=
  toString status

/-- Tests whether the byte pattern c e e d e d ("ceeded") occurs at index i. -/
def ceeded_at (b : List Nat) (i : Nat) : Bool :=
  b.getD i 0 == 99 && b.getD (i + 1) 0 == 101 && b.getD (i + 2) 0 == 101 &&
  b.getD (i + 3) 0 == 100 && b.getD (i + 4) 0 == 101 && b.getD (i + 5) 0 == 100

/-- has_exceeded_limit from utils/ddb.rs.  The Rust loop runs i in
    0..(b.len() - 6) with b.len() a usize: when the slice is shorter than 6
    bytes the subtraction underflows and the function panics (debug overflow
    panic, or index out of bounds in release), modelled here as none. -/
def has_exceeded_limit (opts : Option (List Nat)) : Option Bool :=
  match opts with
  | none => some false
  | some b =>
    if b.length < 6 then
      none
    else
      some ((List.range (b.length - 6)).any fun i => ceeded_at b i)

/-- Reference predicate for the bytes of the ASCII substring "ceeded":
    true exactly when 99,101,101,100,101,100 occurs contiguously in b. -/
def bytesContainCeeded (b : List Nat) : Bool :=
  (List.range (b.length + 1)).any fun i =>
    (b.drop i).take 6 == [99, 101, 101, 100, 101, 100]

/-- retryable_sdk_error from utils/ddb.rs, returning none where the Rust code
    panics (via has_exceeded_limit).  The boolean disjunction short-circuits
    exactly as Rust does: has_exceeded_limit is not evaluated when the status
    is a server error. -/
def retryable_sdk_error (err : SdkErrorKind) : Option (Bool × Option String) :=
  match err with
  | .ConstructionFailure => some (false, some "ConstructionFailure")
  | .TimeoutKind => some (true, some "TimeoutError")
  | .DispatchFailure => some (true, some "DispatchFailure")
  | .ResponseKind => some (true, some "ResponseError")
  | .ServiceError status body =>
    if is_server_error status then
      some (true, some (status_display status))
    else
      match has_exceeded_limit body with
      | none => none
      | some b => some (b, some (status_display status))

/-- From SdkError for LibraryError (utils/ddb.rs): classify, then map through
    database_or_unavailable.  none where the classification panics. -/
def library_error_from_sdk (message : String) (err : SdkErrorKind) : Option LibraryError :=
  (retryable_sdk_error err).map fun rr =>
    LibraryError.database_or_unavailable message rr.2 rr.1

/-! ## String-keyed map (models std HashMap of String to String) -/

/-- Lookup models HashMap::get: first binding with the key. -/
def strMapGet : List (String × String) → String → Option String
  | [], _ => none
  | (k, v) :: rest, key => if k = key then some v else strMapGet rest key

/-- Insert models HashMap::insert: replaces any existing binding of the key. -/
def strMapInsert (m : List (String × String)) (key val : String) : List (String × String) :=
  (key, val) :: m.filter (fun kv => kv.1 ≠ key)

/-! ## Entities and DTOs -/

/-- Duration::days from chrono, with timestamps in seconds. -/
def duration_days (n : Int) : Int :=
  n * 86400

/-- Models the DATE_FMT rendering of a timestamp used for DynamoDB string
    attributes (string_date in utils/ddb.rs).  Only the exact string value
    matters to the verified properties, never the format. -/
def date_display (t : Int) : String :=
  toString t

/-- AddressEntity from parties/domain/model.rs. -/
structure AddressEntity where
  street_address : String
  city : String
  zip_code : String
  state : String
  country : String
  created_at : Int
  updated_at : Int
deriving DecidableEq, Repr

/-- PartyEntity from parties/domain/model.rs.  group_roles is a list of role
    strings in the source. -/
structure PartyEntity where
  party_id : String
  version : Int
  kind : PartyKind
  first_name : String
  last_name : String
  email : String
  under_13 : Bool
  group_roles : List String
  num_holds : Int
  num_overdue : Int
  home_phone : Option String
  cell_phone : Option String
  work_phone : Option String
  address : Option AddressEntity
  created_at : Int
  updated_at : Int
deriving DecidableEq, Repr

/-- PatronDto from patrons/dto.rs. -/
structure PatronDto where
  patron_id : String
  version : Int
  first_name : String
  last_name : String
  email : String
  under_13 : Bool
  group_roles : List Role
  num_holds : Int
  num_overdue : Int
  home_phone : Option String
  cell_phone : Option String
  work_phone : Option String
  street_address : Option String
  city : Option String
  zip_code : Option String
  state : Option String
  country : Option String
  created_at : Int
  updated_at : Int
deriving DecidableEq, Repr

/-- PatronDto::is_role from patrons/dto.rs: linear scan of group_roles. -/
def PatronDto.is_role (p : PatronDto) (match_role : Role) : Bool :=
  p.group_roles.any fun role => role = match_role

/-- PatronDto::is_regular from patrons/dto.rs. -/
def PatronDto.is_regular (p : PatronDto) : Bool :=
  p.group_roles.isEmpty || p.is_role Role.Regular

/-- From PartyEntity for PatronDto (patrons/domain/service.rs): roles pass
    through Role::from on the stored strings; address fields are flattened. -/
def PatronDto.from_party (other : PartyEntity) : PatronDto :=
  { patron_id := other.party_id
    version := other.version
    first_name := other.first_name
    last_name := other.last_name
    email := other.email
    under_13 := other.under_13
    group_roles := other.group_roles.map fun r => Role.fromString r
    num_holds := other.num_holds
    num_overdue := other.num_overdue
    home_phone := other.home_phone
    cell_phone := other.cell_phone
    work_phone := other.work_phone
    street_address := other.address.map fun a => a.street_address
    city := other.address.map fun a => a.city
    zip_code := other.address.map fun a => a.zip_code
    state := other.address.map fun a => a.state
    country := other.address.map fun a => a.country
    created_at := other.created_at
    updated_at := other.updated_at }

/-- BookEntity from books/domain/model.rs. -/
structure BookEntity where
  dewey_decimal_id : String
  book_id : String
  version : Int
  author_id : String
  publisher_id : String
  language : String
  isbn : String
  title : String
  book_status : BookStatus
  restricted : Bool
  published_at : Int
  created_at : Int
  updated_at : Int
deriving DecidableEq, Repr

/-- BookDto from books/dto.rs (same fields as BookEntity). -/
structure BookDto where
  dewey_decimal_id : String
  book_id : String
  version : Int
  author_id : String
  publisher_id : String
  language : String
  isbn : String
  title : String
  book_status : BookStatus
  restricted : Bool
  published_at : Int
  created_at : Int
  updated_at : Int
deriving DecidableEq, Repr

/-- From BookEntity for BookDto (catalog/domain/service.rs). -/
def BookDto.from_entity (other : BookEntity) : BookDto :=
  { dewey_decimal_id := other.dewey_decimal_id
    book_id := other.book_id
    version := other.version
    author_id := other.author_id
    publisher_id := other.publisher_id
    language := other.language
    isbn := other.isbn
    title := other.title
    book_status := other.book_status
    restricted := other.restricted
    published_at := other.published_at
    created_at := other.created_at
    updated_at := other.updated_at }

/-- CheckoutEntity from checkout/domain/model.rs. -/
structure CheckoutEntity where
  checkout_id : String
  version : Int
  branch_id : String
  book_id : String
  patron_id : String
  checkout_status : CheckoutStatus
  checkout_at : Int
  due_at : Int
  returned_at : Option Int
  created_at : Int
  updated_at : Int
deriving DecidableEq, Repr

/-- CheckoutDto from checkout/dto.rs (same fields as CheckoutEntity). -/
structure CheckoutDto where
  checkout_id : String
  version : Int
  branch_id : String
  book_id : String
  patron_id : String
  checkout_status : CheckoutStatus
  checkout_at : Int
  due_at : Int
  returned_at : Option Int
  created_at : Int
  updated_at : Int
deriving DecidableEq, Repr

/-- CheckoutDto::from_patron_book from checkout/dto.rs.  Uuid::new_v4 becomes
    the explicit fresh_id and every Utc::now() call inside the constructor is
    the instant now. -/
def CheckoutDto.from_patron_book (branch_id : String) (patron : PatronDto) (book : BookDto)
    (fresh_id : String) (now : Int) : CheckoutDto :=
  { checkout_id := fresh_id
    version := 0
    branch_id := branch_id
    book_id := book.book_id
    patron_id := patron.patron_id
    checkout_status := .CheckedOut
    checkout_at := now
    due_at := now + duration_days 15
    returned_at := none
    created_at := now
    updated_at := now }

/-- From CheckoutDto for CheckoutEntity (checkout/domain/service.rs). -/
def CheckoutEntity.from_dto (other : CheckoutDto) : CheckoutEntity :=
  { checkout_id := other.checkout_id
    version := other.version
    branch_id := other.branch_id
    book_id := other.book_id
    patron_id := other.patron_id
    checkout_status := other.checkout_status
    checkout_at := other.checkout_at
    due_at := other.due_at
    returned_at := other.returned_at
    created_at := other.created_at
    updated_at := other.updated_at }

/-- From CheckoutEntity for CheckoutDto (checkout/domain/service.rs). -/
def CheckoutDto.from_entity (other : CheckoutEntity) : CheckoutDto :=
  { checkout_id := other.checkout_id
    version := other.version
    branch_id := other.branch_id
    book_id := other.book_id
    patron_id := other.patron_id
    checkout_status := other.checkout_status
    checkout_at := other.checkout_at
    due_at := other.due_at
    returned_at := other.returned_at
    created_at := other.created_at
    updated_at := other.updated_at }

/-- HoldEntity from hold/domain/model.rs. -/
structure HoldEntity where
  hold_id : String
  version : Int
  branch_id : String
  book_id : String
  patron_id : String
  hold_status : HoldStatus
  hold_at : Int
  expires_at : Int
  canceled_at : Option Int
  checked_out_at : Option Int
  created_at : Int
  updated_at : Int
deriving DecidableEq, Repr

/-- HoldDto: the struct lives in hold/dto.rs which is not among the provided
    sources; its field list is fully determined by the two From impls between
    HoldDto and HoldEntity in hold/domain/service.rs, reproduced here. -/
structure HoldDto where
  hold_id : String
  version : Int
  branch_id : String
  book_id : String
  patron_id : String
  hold_status : HoldStatus
  hold_at : Int
  expires_at : Int
  canceled_at : Option Int
  checked_out_at : Option Int
  created_at : Int
  updated_at : Int
deriving DecidableEq, Repr

/-- from_patron_book for holds (hold/domain/service.rs): builds the OnHold
    entity; Uuid::new_v4 becomes fresh_id and each Utc::now() the instant now. -/
def hold_from_patron_book (branch_id : String) (patron : PatronDto) (book : BookDto)
    (fresh_id : String) (now : Int) : HoldEntity :=
  { hold_id := fresh_id
    version := 0
    branch_id := branch_id
    book_id := book.book_id
    patron_id := patron.patron_id
    hold_status := .OnHold
    hold_at := now
    expires_at := now + duration_days 15
    canceled_at := none
    checked_out_at := none
    created_at := now
    updated_at := now }

/-- From HoldEntity for HoldDto (hold/domain/service.rs). -/
def HoldDto.from_entity (other : HoldEntity) : HoldDto :=
  { hold_id := other.hold_id
    version := other.version
    branch_id := other.branch_id
    book_id := other.book_id
    patron_id := other.patron_id
    hold_status := other.hold_status
    hold_at := other.hold_at
    expires_at := other.expires_at
    canceled_at := other.canceled_at
    checked_out_at := other.checked_out_at
    created_at := other.created_at
    updated_at := other.updated_at }

/-- DomainEventType from core/events.rs. -/
inductive DomainEventType where
  | Added
  | Updated
  | Deleted
deriving DecidableEq, Repr

/-- DomainEvent from core/events.rs.  The event_id (random UUID), json_data
    (serde payload) and created_at (clock) fields are not referenced by any
    verified property and are elided; the serde serialization step in the
    added/updated/deleted constructors is modelled as always succeeding. -/
structure DomainEvent where
  name : String
  group : String
  key : String
  kind : DomainEventType
  metadata : List (String × String)
deriving DecidableEq, Repr

/-- DomainEvent::added (core/events.rs). -/
def DomainEvent.added (name group key : String) (metadata : List (String × String)) :
    DomainEvent :=
  { name := name, group := group, key := key, kind := .Added, metadata := metadata }

/-- DomainEvent::updated (core/events.rs). -/
def DomainEvent.updated (name group key : String) (metadata : List (String × String)) :
    DomainEvent :=
  { name := name, group := group, key := key, kind := .Updated, metadata := metadata }

/-- DomainEvent::deleted (core/events.rs). -/
def DomainEvent.deleted (name group key : String) (metadata : List (String × String)) :
    DomainEvent :=
  { name := name, group := group, key := key, kind := .Deleted, metadata := metadata }

/-! ## Versioned store adapter (DynamoDB repositories)

Each DDB repository in the source follows the same shape: a conditional
put_item for create (attribute_not_exists on the key), a conditional
update_item for update (attribute_exists(version) AND version = :old_version,
SET version = :old_version + 1 plus the per-entity field list), a limit-2
consistent query for get, and a GSI query with a hash key on the status
attribute.  Tables are modelled as lists of entities; DynamoDB keys every
item by its partition key, so a well-formed table has pairwise distinct
ids, a fact carried as a hypothesis where needed. -/

/-- Error produced when a DynamoDB conditional write fails: the service
    answers HTTP 400 with a ConditionalCheckFailedException body, which
    retryable_sdk_error classifies as non-retryable with the status text as
    reason, and database_or_unavailable then maps to a non-retryable error. -/
def conditional_check_failed_body : List Nat :=
  "ConditionalCheckFailedException: The conditional request failed".toList.map Char.toNat

/-- LibraryError produced for a failed conditional write, obtained by running
    the actual classification pipeline on the 400 ServiceError. -/
def conditional_check_failed_error : LibraryError :=
  (library_error_from_sdk "conditional request failed"
    (.ServiceError 400 (some conditional_check_failed_body))).getD
    (.Runtime "panic" none)

/-- Generic conditional create (put_item with attribute_not_exists on the id
    key): fails when an item with the same id already exists, else appends. -/
def ddb_create {α : Type} (getId : α → String) (table : List α) (entity : α) :
    Except LibraryError (List α × Nat) :=
  if table.any (fun e => getId e = getId entity) then
    .error conditional_check_failed_error
  else
    .ok (table ++ [entity], 1)

/-- Generic conditional update (update_item keyed by id with condition
    attribute_exists(version) AND version = :old_version): fails when no item
    carries the id or the stored version differs from the version of the
    entity passed in; on success applies the per-repository SET expression to
    the stored item. -/
def ddb_update {α : Type} (getId : α → String) (getVersion : α → Int)
    (applyExpr : α → α → Int → α) (table : List α) (entity : α) (now : Int) :
    Except LibraryError (List α × Nat) :=
  match table.find? (fun e => getId e = getId entity) with
  | some stored =>
    if getVersion stored = getVersion entity then
      .ok (table.map (fun e => if getId e = getId entity then applyExpr e entity now else e), 1)
    else
      .error conditional_check_failed_error
  | none => .error conditional_check_failed_error

/-- Generic get (limit-2 consistent query on the id key): Database error when
    two items share an id, NotFound when none does. -/
def ddb_get {α : Type} (getId : α → String) (tooManyMsg notFoundMsg : String)
    (table : List α) (id : String) : Except LibraryError α :=
  if ((table.filter (fun e => getId e = id)).take 2).length > 1 then
    .error (LibraryError.database tooManyMsg none false)
  else
    match ((table.filter (fun e => getId e = id)).take 2).head? with
    | some e => .ok e
    | none => .error (LibraryError.not_found notFoundMsg)

/-- Generic unconditional delete (delete_item keyed by id). -/
def ddb_delete {α : Type} (getId : α → String) (table : List α) (id : String) :
    Except LibraryError (List α × Nat) :=
  .ok (table.filter (fun e => getId e ≠ id), 1)

/-! ### Query translation (GSI key condition plus filter expression) -/

/-- PaginatedResult from core/library.rs. -/
structure PaginatedResult (α : Type) where
  page : Option String
  page_size : Nat
  next_page : Option String
  records : List α
deriving Repr

/-- Splitting a character list at every occurrence of a separator, the
    behavior of Rust str::split on a single char pattern. -/
def splitOnChar (c : Char) : List Char → List (List Char)
  | [] => [[]]
  | a :: rest =>
    let r := splitOnChar c rest
    if a = c then [] :: r
    else
      match r with
      | [] => [[a]]
      | h :: t => (a :: h) :: t

/-- add_filter_expr key parsing from utils/ddb.rs: the key is split on the
    colon; with more than one part, parts[0] is the field and parts[1] the
    operator, else the whole key is the field and the operator defaults
    to "=". -/
def split_filter_key (k : String) : String × String :=
  let parts := (splitOnChar ':' k.toList).map fun l => String.mk l
  if parts.length > 1 then (parts.getD 0 k, parts.getD 1 "=") else (k, "=")

/-- Lexicographic comparison of char lists by code point, the order DynamoDB
    applies to string attributes. -/
def charListLe : List Char → List Char → Bool
  | [], _ => true
  | _ :: _, [] => false
  | a :: as, b :: bs =>
    if a.toNat < b.toNat then true
    else if b.toNat < a.toNat then false
    else charListLe as bs

/-- String order used by DynamoDB comparisons on string attributes. -/
def strLe (a b : String) : Bool :=
  charListLe a.toList b.toList

/-- Evaluation of one filter-expression comparison.  The repositories only
    ever emit the operators produced by add_filter_expr key suffixes; the
    services use "=" and "<=" (and tests ">="); any other operator text would
    be rejected by DynamoDB and never matches here. -/
def apply_filter_op (op : String) (attr target : String) : Bool :=
  if op = "=" then attr = target
  else if op = "<=" then strLe attr target
  else if op = ">=" then strLe target attr
  else false

/-- String value of a CheckoutEntity attribute as stored in DynamoDB.  The
    numeric version attribute is typed N and never matches the string-typed
    filter values the repository builds, hence none. -/
def checkout_attr (e : CheckoutEntity) (field : String) : Option String :=
  if field = "checkout_id" then some e.checkout_id
  else if field = "branch_id" then some e.branch_id
  else if field = "book_id" then some e.book_id
  else if field = "patron_id" then some e.patron_id
  else if field = "checkout_status" then some (CheckoutStatus.display e.checkout_status)
  else if field = "checkout_at" then some (date_display e.checkout_at)
  else if field = "due_at" then some (date_display e.due_at)
  else if field = "returned_at" then e.returned_at.map date_display
  else if field = "created_at" then some (date_display e.created_at)
  else if field = "updated_at" then some (date_display e.updated_at)
  else none

/-- One filter-expression entry applied to a CheckoutEntity. -/
def checkout_filter_matches (e : CheckoutEntity) (k v : String) : Bool :=
  match checkout_attr e (split_filter_key k).1 with
  | some a => apply_filter_op (split_filter_key k).2 a v
  | none => false

/-- String value of a HoldEntity attribute as stored in DynamoDB. -/
def hold_attr (e : HoldEntity) (field : String) : Option String :=
  if field = "hold_id" then some e.hold_id
  else if field = "branch_id" then some e.branch_id
  else if field = "book_id" then some e.book_id
  else if field = "patron_id" then some e.patron_id
  else if field = "hold_status" then some (HoldStatus.display e.hold_status)
  else if field = "hold_at" then some (date_display e.hold_at)
  else if field = "expires_at" then some (date_display e.expires_at)
  else if field = "canceled_at" then e.canceled_at.map date_display
  else if field = "checked_out_at" then e.checked_out_at.map date_display
  else if field = "created_at" then some (date_display e.created_at)
  else if field = "updated_at" then some (date_display e.updated_at)
  else none

/-- One filter-expression entry applied to a HoldEntity. -/
def hold_filter_matches (e : HoldEntity) (k v : String) : Bool :=
  match hold_attr e (split_filter_key k).1 with
  | some a => apply_filter_op (split_filter_key k).2 a v
  | none => false

/-! ### Checkout repository (checkout/repository/ddb_checkout_repository.rs) -/

/-- SET expression of DDBCheckoutRepository::update: version becomes
    entity.version + 1; checkout_status, due_at and returned_at are taken
    from the entity; updated_at from the clock; all other attributes keep
    their stored values. -/
def apply_checkout_update_expr (stored entity : CheckoutEntity) (now : Int) : CheckoutEntity :=
  { stored with
    version := entity.version + 1
    checkout_status := entity.checkout_status
    due_at := entity.due_at
    returned_at := entity.returned_at
    updated_at := now }

/-- DDBCheckoutRepository::create. -/
def DDBCheckoutRepository.create (table : List CheckoutEntity) (entity : CheckoutEntity) :
    Except LibraryError (List CheckoutEntity × Nat) :=
  ddb_create (fun e => e.checkout_id) table entity

/-- DDBCheckoutRepository::update. -/
def DDBCheckoutRepository.update (table : List CheckoutEntity) (entity : CheckoutEntity)
    (now : Int) : Except LibraryError (List CheckoutEntity × Nat) :=
  ddb_update (fun e => e.checkout_id) (fun e => e.version) apply_checkout_update_expr
    table entity now

/-- DDBCheckoutRepository::get. -/
def DDBCheckoutRepository.get (table : List CheckoutEntity) (id : String) :
    Except LibraryError CheckoutEntity :=
  ddb_get (fun e => e.checkout_id) ("too many checkout for " ++ id)
    ("checkout not found for " ++ id) table id

/-- DDBCheckoutRepository::query: the GSI hash key is checkout_status, taken
    from the predicate or defaulted to CheckedOut; patron_id is the range
    key when supplied; every other predicate entry becomes a conjunctive
    filter applied after the limit (DynamoDB applies Limit to the key-matched
    items scanned, then the filter).  The cursor mechanism (exclusive start
    key) is not modelled: every service call settled here passes page None. -/
def DDBCheckoutRepository.query (table : List CheckoutEntity)
    (predicate : List (String × String)) (page_size : Nat) :
    PaginatedResult CheckoutEntity :=
  let status := (strMapGet predicate "checkout_status").getD (CheckoutStatus.display .CheckedOut)
  let key_matches := table.filter fun e =>
    CheckoutStatus.display e.checkout_status = status &&
      match strMapGet predicate "patron_id" with
      | some pid => e.patron_id = pid
      | none => true
  let scanned := key_matches.take (min page_size 500)
  let filters := predicate.filter fun kv => kv.1 ≠ "checkout_status" ∧ kv.1 ≠ "patron_id"
  let records := scanned.filter fun e => filters.all fun kv => checkout_filter_matches e kv.1 kv.2
  { page := none, page_size := page_size, next_page := none, records := records }

/-- Forced-plus-caller predicate of DDBCheckoutRepository::query_overdue: the
    new predicate starts from checkout_status = CheckedOut and due_at at most
    now, then every caller entry is inserted (HashMap::insert overwrites). -/
def DDBCheckoutRepository.overdue_predicate (now : Int)
    (predicate : List (String × String)) : List (String × String) :=
  predicate.foldl (fun acc kv => strMapInsert acc kv.1 kv.2)
    [("checkout_status", CheckoutStatus.display .CheckedOut), ("due_at:<=", date_display now)]

/-- DDBCheckoutRepository::query_overdue. -/
def DDBCheckoutRepository.query_overdue (table : List CheckoutEntity)
    (predicate : List (String × String)) (page_size : Nat) (now : Int) :
    PaginatedResult CheckoutEntity :=
  DDBCheckoutRepository.query table (DDBCheckoutRepository.overdue_predicate now predicate)
    page_size

/-! ### Hold repository (hold/repository/ddb_hold_repository.rs) -/

/-- SET expression of DDBHoldRepository::update. -/
def apply_hold_update_expr (stored entity : HoldEntity) (now : Int) : HoldEntity :=
  { stored with
    version := entity.version + 1
    hold_status := entity.hold_status
    hold_at := entity.hold_at
    expires_at := entity.expires_at
    canceled_at := entity.canceled_at
    checked_out_at := entity.checked_out_at
    updated_at := now }

/-- DDBHoldRepository::create. -/
def DDBHoldRepository.create (table : List HoldEntity) (entity : HoldEntity) :
    Except LibraryError (List HoldEntity × Nat) :=
  ddb_create (fun e => e.hold_id) table entity

/-- DDBHoldRepository::update. -/
def DDBHoldRepository.update (table : List HoldEntity) (entity : HoldEntity) (now : Int) :
    Except LibraryError (List HoldEntity × Nat) :=
  ddb_update (fun e => e.hold_id) (fun e => e.version) apply_hold_update_expr table entity now

/-- DDBHoldRepository::get. -/
def DDBHoldRepository.get (table : List HoldEntity) (id : String) :
    Except LibraryError HoldEntity :=
  ddb_get (fun e => e.hold_id) ("too many hold for " ++ id) ("hold not found for " ++ id)
    table id

/-- DDBHoldRepository::query: hash key hold_status defaulted to OnHold,
    range key patron_id when supplied, remaining entries as filters. -/
def DDBHoldRepository.query (table : List HoldEntity)
    (predicate : List (String × String)) (page_size : Nat) : PaginatedResult HoldEntity :=
  let status := (strMapGet predicate "hold_status").getD (HoldStatus.display .OnHold)
  let key_matches := table.filter fun e =>
    HoldStatus.display e.hold_status = status &&
      match strMapGet predicate "patron_id" with
      | some pid => e.patron_id = pid
      | none => true
  let scanned := key_matches.take (min page_size 500)
  let filters := predicate.filter fun kv => kv.1 ≠ "hold_status" ∧ kv.1 ≠ "patron_id"
  let records := scanned.filter fun e => filters.all fun kv => hold_filter_matches e kv.1 kv.2
  { page := none, page_size := page_size, next_page := none, records := records }

/-- Forced-plus-caller predicate of DDBHoldRepository::query_expired. -/
def DDBHoldRepository.expired_predicate (now : Int)
    (predicate : List (String × String)) : List (String × String) :=
  predicate.foldl (fun acc kv => strMapInsert acc kv.1 kv.2)
    [("hold_status", HoldStatus.display .OnHold), ("expires_at:<=", date_display now)]

/-- DDBHoldRepository::query_expired. -/
def DDBHoldRepository.query_expired (table : List HoldEntity)
    (predicate : List (String × String)) (page_size : Nat) (now : Int) :
    PaginatedResult HoldEntity :=
  DDBHoldRepository.query table (DDBHoldRepository.expired_predicate now predicate) page_size

/-! ### Book repository (books/repository/ddb_book_repository.rs) -/

/-- SET expression of DDBBookRepository::update. -/
def apply_book_update_expr (stored entity : BookEntity) (now : Int) : BookEntity :=
  { stored with
    version := entity.version + 1
    title := entity.title
    book_status := entity.book_status
    dewey_decimal_id := entity.dewey_decimal_id
    restricted := entity.restricted
    updated_at := now }

/-- DDBBookRepository::create. -/
def DDBBookRepository.create (table : List BookEntity) (entity : BookEntity) :
    Except LibraryError (List BookEntity × Nat) :=
  ddb_create (fun e => e.book_id) table entity

/-- DDBBookRepository::update. -/
def DDBBookRepository.update (table : List BookEntity) (entity : BookEntity) (now : Int) :
    Except LibraryError (List BookEntity × Nat) :=
  ddb_update (fun e => e.book_id) (fun e => e.version) apply_book_update_expr table entity now

/-- DDBBookRepository::get. -/
def DDBBookRepository.get (table : List BookEntity) (id : String) :
    Except LibraryError BookEntity :=
  ddb_get (fun e => e.book_id) ("too many books for " ++ id) ("book item not found for " ++ id)
    table id

/-! ### Party repository (parties/repository/ddb_party_repository.rs) -/

/-- SET expression of DDBPartyRepository::update.  In the source, address and
    group_roles are written as their JSON serializations; the table here
    stores structured records, so they are carried over structurally. -/
def apply_party_update_expr (stored entity : PartyEntity) (now : Int) : PartyEntity :=
  { stored with
    version := entity.version + 1
    email := entity.email
    kind := entity.kind
    first_name := entity.first_name
    last_name := entity.last_name
    address := entity.address
    group_roles := entity.group_roles
    num_holds := entity.num_holds
    num_overdue := entity.num_overdue
    updated_at := now }

/-- DDBPartyRepository::create. -/
def DDBPartyRepository.create (table : List PartyEntity) (entity : PartyEntity) :
    Except LibraryError (List PartyEntity × Nat) :=
  ddb_create (fun e => e.party_id) table entity

/-- DDBPartyRepository::update. -/
def DDBPartyRepository.update (table : List PartyEntity) (entity : PartyEntity) (now : Int) :
    Except LibraryError (List PartyEntity × Nat) :=
  ddb_update (fun e => e.party_id) (fun e => e.version) apply_party_update_expr table entity now

/-- DDBPartyRepository::get. -/
def DDBPartyRepository.get (table : List PartyEntity) (id : String) :
    Except LibraryError PartyEntity :=
  ddb_get (fun e => e.party_id) ("too many parties for " ++ id) ("party not found for " ++ id)
    table id

/-! ## Services

State of the whole system: one table per entity plus the list of published
domain events (the publisher is a sink that always accepts).  Every service
operation returns its Rust result together with the state after the call, so
that failing paths can be seen to leave the stored state untouched. -/

/-- The four DynamoDB tables plus the event sink. -/
structure LibraryState where
  parties : List PartyEntity
  books : List BookEntity
  checkouts : List CheckoutEntity
  holds : List HoldEntity
  events : List DomainEvent
deriving Repr

/-- PatronServiceImpl::find_patron_by_id (patrons/domain/service.rs). -/
def PatronServiceImpl.find_patron_by_id (parties : List PartyEntity) (id : String) :
    Except LibraryError PatronDto :=
  (DDBPartyRepository.get parties id).map PatronDto.from_party

/-- CatalogServiceImpl::find_book_by_id (catalog/domain/service.rs). -/
def CatalogServiceImpl.find_book_by_id (books : List BookEntity) (id : String) :
    Except LibraryError BookDto :=
  (DDBBookRepository.get books id).map BookDto.from_entity

/-- CheckoutServiceImpl::find_first (checkout/domain/service.rs): queries the
    checkout repository by patron_id and book_id with page size 10 and takes
    the first record. -/
def CheckoutServiceImpl.find_first (checkouts : List CheckoutEntity)
    (patron_id book_id : String) : Except LibraryError CheckoutEntity :=
  match (DDBCheckoutRepository.query checkouts
    [("patron_id", patron_id), ("book_id", book_id)] 10).records.head? with
  | some first => .ok first
  | none =>
    .error (LibraryError.not_found
      ("checkout with id " ++ book_id ++ " for patron " ++ patron_id ++ " not found"))

/-- CheckoutServiceImpl::checkout (checkout/domain/service.rs): resolve patron
    and book, validate availability and restriction, create the checkout row,
    publish the Added event. -/
def CheckoutServiceImpl.checkout (branch_id : String) (st : LibraryState)
    (patron_id book_id fresh_id : String) (now : Int) :
    Except LibraryError CheckoutDto × LibraryState :=
  match PatronServiceImpl.find_patron_by_id st.parties patron_id with
  | .error e => (.error e, st)
  | .ok patron =>
    match CatalogServiceImpl.find_book_by_id st.books book_id with
    | .error e => (.error e, st)
    | .ok book =>
      if book.book_status ≠ BookStatus.Available then
        (.error (LibraryError.validation ("book is not available " ++ book.book_id)
          (some "400")), st)
      else if book.restricted && patron.is_regular then
        (.error (LibraryError.validation
          ("patron " ++ patron.patron_id ++ " cannot hold restricted books " ++ book.book_id)
          (some "400")), st)
      else
        let checkout := CheckoutDto.from_patron_book branch_id patron book fresh_id now
        match DDBCheckoutRepository.create st.checkouts (CheckoutEntity.from_dto checkout) with
        | .error e => (.error e, st)
        | .ok (checkouts2, _) =>
          let ev := DomainEvent.added "book_checkout" "checkout" checkout.checkout_id []
          (.ok checkout, { st with checkouts := checkouts2, events := st.events ++ [ev] })

/-- CheckoutServiceImpl::returned (checkout/domain/service.rs): resolve patron
    and book, find the first matching checkout, mutate it to Returned with
    returned_at = now, perform the versioned update, publish the Deleted
    event. -/
def CheckoutServiceImpl.returned (st : LibraryState) (patron_id book_id : String) (now : Int) :
    Except LibraryError CheckoutDto × LibraryState :=
  match PatronServiceImpl.find_patron_by_id st.parties patron_id with
  | .error e => (.error e, st)
  | .ok _ =>
    match CatalogServiceImpl.find_book_by_id st.books book_id with
    | .error e => (.error e, st)
    | .ok _ =>
      match CheckoutServiceImpl.find_first st.checkouts patron_id book_id with
      | .error e => (.error e, st)
      | .ok existing0 =>
        let existing := { existing0 with
          checkout_status := CheckoutStatus.Returned, returned_at := some now }
        match DDBCheckoutRepository.update st.checkouts existing now with
        | .error e => (.error e, st)
        | .ok (checkouts2, _) =>
          let checkout := CheckoutDto.from_entity existing
          let ev := DomainEvent.deleted "book_returned" "checkout" checkout.checkout_id []
          (.ok checkout, { st with checkouts := checkouts2, events := st.events ++ [ev] })

/-- HoldServiceImpl::hold (hold/domain/service.rs): same validations as
    checkout, creates the OnHold row, publishes the Added event. -/
def HoldServiceImpl.hold (branch_id : String) (st : LibraryState)
    (patron_id book_id fresh_id : String) (now : Int) :
    Except LibraryError HoldDto × LibraryState :=
  match PatronServiceImpl.find_patron_by_id st.parties patron_id with
  | .error e => (.error e, st)
  | .ok patron =>
    match CatalogServiceImpl.find_book_by_id st.books book_id with
    | .error e => (.error e, st)
    | .ok book =>
      if book.book_status ≠ BookStatus.Available then
        (.error (LibraryError.validation ("book is not available " ++ book.book_id)
          (some "400")), st)
      else if book.restricted && patron.is_regular then
        (.error (LibraryError.validation
          ("patron " ++ patron.patron_id ++ " cannot hold restricted books " ++ book.book_id)
          (some "400")), st)
      else
        let hold := hold_from_patron_book branch_id patron book fresh_id now
        match DDBHoldRepository.create st.holds hold with
        | .error e => (.error e, st)
        | .ok (holds2, _) =>
          let dto := HoldDto.from_entity hold
          let ev := DomainEvent.added "book_hold" "book_hold" dto.hold_id []
          (.ok dto, { st with holds := holds2, events := st.events ++ [ev] })

/-- HoldServiceImpl::cancel (hold/domain/service.rs): resolve patron and book,
    query holds by (patron_id, book_id) with page size 10, mutate the first
    match to Canceled with canceled_at = now, versioned update, publish the
    Deleted event; NotFound when no match. -/
def HoldServiceImpl.cancel (st : LibraryState) (patron_id book_id : String) (now : Int) :
    Except LibraryError HoldDto × LibraryState :=
  match PatronServiceImpl.find_patron_by_id st.parties patron_id with
  | .error e => (.error e, st)
  | .ok patron =>
    match CatalogServiceImpl.find_book_by_id st.books book_id with
    | .error e => (.error e, st)
    | .ok book =>
      match (DDBHoldRepository.query st.holds
        [("patron_id", patron.patron_id), ("book_id", book.book_id)] 10).records.head? with
      | some first0 =>
        let first := { first0 with
          hold_status := HoldStatus.Canceled, canceled_at := some now }
        match DDBHoldRepository.update st.holds first now with
        | .error e => (.error e, st)
        | .ok (holds2, _) =>
          let dto := HoldDto.from_entity first
          let ev := DomainEvent.deleted "book_hold_cancel" "book_hold_cancel" dto.hold_id []
          (.ok dto, { st with holds := holds2, events := st.events ++ [ev] })
      | none =>
        (.error (LibraryError.not_found
          ("book with id " ++ book.book_id ++ " for patron " ++ patron.patron_id ++
            " not found")), st)

/-- HoldServiceImpl::checkout (hold/domain/service.rs): the hold-to-checkout
    conversion; first-match pattern as in cancel, mutating to CheckedOut with
    checked_out_at = now. -/
def HoldServiceImpl.checkout (st : LibraryState) (patron_id book_id : String) (now : Int) :
    Except LibraryError HoldDto × LibraryState :=
  match PatronServiceImpl.find_patron_by_id st.parties patron_id with
  | .error e => (.error e, st)
  | .ok patron =>
    match CatalogServiceImpl.find_book_by_id st.books book_id with
    | .error e => (.error e, st)
    | .ok book =>
      match (DDBHoldRepository.query st.holds
        [("patron_id", patron.patron_id), ("book_id", book.book_id)] 10).records.head? with
      | some first0 =>
        let first := { first0 with
          hold_status := HoldStatus.CheckedOut, checked_out_at := some now }
        match DDBHoldRepository.update st.holds first now with
        | .error e => (.error e, st)
        | .ok (holds2, _) =>
          let dto := HoldDto.from_entity first
          let ev := DomainEvent.deleted "book_hold_checkout" "book_hold_checkout" dto.hold_id []
          (.ok dto, { st with holds := holds2, events := st.events ++ [ev] })
      | none =>
        (.error (LibraryError.not_found
          ("book with id " ++ book.book_id ++ " for patron " ++ patron.patron_id ++
            " not found")), st)

/-- One inbound command against the hold state machine, for stating
    reachability invariants over sequences of operations. -/
inductive HoldOp where
  | place (branch_id patron_id book_id fresh_id : String) (now : Int)
  | cancel (patron_id book_id : String) (now : Int)
  | convert (patron_id book_id : String) (now : Int)

/-- State transition of one hold command (result discarded). -/
def hold_step (st : LibraryState) : HoldOp → LibraryState
  | .place br p b f n => (HoldServiceImpl.hold br st p b f n).2
  | .cancel p b n => (HoldServiceImpl.cancel st p b n).2
  | .convert p b n => (HoldServiceImpl.checkout st p b n).2

/-! ## Hold lifecycle invariant -/

/-- Well-formedness of the terminal markers of a single hold: OnHold rows have
    no terminal marker, Canceled rows have canceled_at and no checked_out_at,
    CheckedOut rows have checked_out_at and no canceled_at. -/
def hold_markers_wf (h : HoldEntity) : Prop :=
  (h.hold_status = .OnHold → h.canceled_at = none ∧ h.checked_out_at = none) ∧
  (h.hold_status = .Canceled → h.canceled_at ≠ none ∧ h.checked_out_at = none) ∧
  (h.hold_status = .CheckedOut → h.checked_out_at ≠ none ∧ h.canceled_at = none)

/-- Well-formedness of the hold table: per-row marker discipline plus the
    DynamoDB key invariant that hold ids are pairwise distinct. -/
def holds_wf (holds : List HoldEntity) : Prop :=
  (∀ h ∈ holds, hold_markers_wf h) ∧ (holds.map fun h => h.hold_id).Nodup

/-! ## Concrete sample data used by witnesses -/

/-- Patron party with an empty role set. -/
def sample_party : PartyEntity :=
  { party_id := "patron-1", version := 0, kind := .Patron, first_name := "", last_name := ""
    email := "patron@example.org", under_13 := false, group_roles := [], num_holds := 0
    num_overdue := 0, home_phone := none, cell_phone := none, work_phone := none
    address := none, created_at := 0, updated_at := 0 }

/-- Patron party holding the Librarian role. -/
def sample_party_librarian : PartyEntity :=
  { sample_party with party_id := "patron-2", group_roles := ["Librarian"] }

/-- Available unrestricted book. -/
def sample_book : BookEntity :=
  { dewey_decimal_id := "300", book_id := "book-1", version := 0, author_id := "author-1"
    publisher_id := "pub-1", language := "en", isbn := "isbn-1", title := "title"
    book_status := .Available, restricted := false, published_at := 0, created_at := 0
    updated_at := 0 }

/-- Book already checked out. -/
def sample_book_checkedout : BookEntity :=
  { sample_book with book_id := "book-2", book_status := .CheckedOut }

/-- Available restricted book. -/
def sample_book_restricted : BookEntity :=
  { sample_book with book_id := "book-3", restricted := true }

/-- Active checkout row for patron-1 and book-1. -/
def sample_checkout : CheckoutEntity :=
  { checkout_id := "co-1", version := 0, branch_id := "branch-1", book_id := "book-1"
    patron_id := "patron-1", checkout_status := .CheckedOut, checkout_at := 0
    due_at := duration_days 15, returned_at := none, created_at := 0, updated_at := 0 }

/-- OnHold row for patron-1 and book-1. -/
def sample_hold : HoldEntity :=
  { hold_id := "hold-1", version := 0, branch_id := "branch-1", book_id := "book-1"
    patron_id := "patron-1", hold_status := .OnHold, hold_at := 0
    expires_at := duration_days 15, canceled_at := none, checked_out_at := none
    created_at := 0, updated_at := 0 }

/-- Baseline state: two patrons, three books, no checkouts, holds or events. -/
def sample_state : LibraryState :=
  { parties := [sample_party, sample_party_librarian]
    books := [sample_book, sample_book_checkedout, sample_book_restricted]
    checkouts := [], holds := [], events := [] }

/-- State whose only checkout row for (patron-1, book-1) is already Returned. -/
def sample_state_returned : LibraryState :=
  { sample_state with
    checkouts := [{ sample_checkout with
      checkout_status := .Returned, returned_at := some 5, version := 1 }] }

/-- State whose only hold row for (patron-1, book-1) is already Canceled. -/
def sample_state_hold_canceled : LibraryState :=
  { sample_state with
    holds := [{ sample_hold with
      hold_status := .Canceled, canceled_at := some 5, version := 1 }] }

/-- State holding one OnHold row. -/
def sample_state_on_hold : LibraryState :=
  { sample_state with holds := [sample_hold] }

/-- The hold DTO produced by canceling sample_hold at time 7. -/
def sample_canceled_dto : HoldDto :=
  HoldDto.from_entity { sample_hold with hold_status := .Canceled, canceled_at := some 7 }

/-- The hold DTO produced by converting sample_hold at time 7. -/
def sample_converted_dto : HoldDto :=
  HoldDto.from_entity { sample_hold with hold_status := .CheckedOut, checked_out_at := some 7 }

/-! ## Helper lemmas -/

/-- Display of BookStatus is injective. -/
lemma book_status_display_inj {a b : BookStatus} (h : BookStatus.display a = BookStatus.display b) :
    a = b := by
  cases a <;> cases b <;> first | rfl | simp [BookStatus.display] at h

/-- Display of CheckoutStatus is injective. -/
lemma checkout_status_display_inj {a b : CheckoutStatus}
    (h : CheckoutStatus.display a = CheckoutStatus.display b) : a = b := by
  cases a <;> cases b <;> first | rfl | simp [CheckoutStatus.display] at h

/-- Display of HoldStatus is injective. -/
lemma hold_status_display_inj {a b : HoldStatus}
    (h : HoldStatus.display a = HoldStatus.display b) : a = b := by
  cases a <;> cases b <;> first | rfl | simp [HoldStatus.display] at h

/-- With pairwise distinct keys, the member with a given key is found by
    find?. -/
lemma find?_of_nodup_mem {α : Type} (getId : α → String) (l : List α) (s : α) (tgt : String)
    (hnd : (l.map getId).Nodup) (hmem : s ∈ l) (hid : getId s = tgt) :
    l.find? (fun e => getId e = tgt) = some s := by
  induction l with
  | nil => cases hmem
  | cons a t ih =>
    rcases List.mem_cons.mp hmem with rfl | hmt
    · simp [List.find?_cons, hid]
    · have hnd2 : (t.map getId).Nodup := (List.nodup_cons.mp hnd).2
      have hne : getId a ≠ tgt := by
        intro hcl
        exact (List.nodup_cons.mp hnd).1 (hcl ▸ hid ▸ List.mem_map_of_mem getId hmt)
      simp [List.find?_cons, hne, ih hnd2 hmt]

/-- With pairwise distinct keys, filtering on a key held by a member returns
    exactly that member. -/
lemma filter_eq_single_of_nodup {α : Type} (getId : α → String) (l : List α) (s : α)
    (tgt : String) (hnd : (l.map getId).Nodup) (hmem : s ∈ l) (hid : getId s = tgt) :
    l.filter (fun e => getId e = tgt) = [s] := by
  induction l with
  | nil => cases hmem
  | cons a t ih =>
    rcases List.mem_cons.mp hmem with rfl | hmt
    · have : ∀ x ∈ t, ¬(getId x = tgt) := by
        intro x hx hcl
        exact (List.nodup_cons.mp hnd).1 (hid ▸ hcl ▸ List.mem_map_of_mem getId hx)
      have ht : t.filter (fun e => getId e = tgt) = [] := by
        refine List.filter_eq_nil_iff.mpr ?_
        intro x hx
        simpa using this x hx
      simp [List.filter_cons, hid, ht]
    · have hnd2 : (t.map getId).Nodup := (List.nodup_cons.mp hnd).2
      have hne : getId a ≠ tgt := by
        intro hcl
        exact (List.nodup_cons.mp hnd).1 (hcl ▸ hid ▸ List.mem_map_of_mem getId hmt)
      simp [List.filter_cons, hne, ih hnd2 hmt]

/-- Mapping a key-preserving function commutes with filtering on a key. -/
lemma filter_map_comm {α : Type} (f : α → α) (p : α → Bool) (hp : ∀ a, p (f a) = p a)
    (l : List α) : (l.map f).filter p = (l.filter p).map f := by
  induction l with
  | nil => rfl
  | cons a t ih =>
    by_cases h : p a <;> simp [List.filter_cons, hp, h, ih]

/-- Conditional update with a version mismatch on the stored item fails. -/
lemma ddb_update_conflict {α : Type} (getId : α → String) (getVersion : α → Int)
    (applyExpr : α → α → Int → α) (table : List α) (entity s : α) (now : Int)
    (hfind : table.find? (fun e => getId e = getId entity) = some s)
    (hv : getVersion s ≠ getVersion entity) :
    ddb_update getId getVersion applyExpr table entity now =
      .error conditional_check_failed_error := by
  unfold ddb_update
  rw [hfind]
  simp [hv]

/-- Conditional update with the matching version succeeds and rewrites the
    keyed item with the SET expression. -/
lemma ddb_update_success {α : Type} (getId : α → String) (getVersion : α → Int)
    (applyExpr : α → α → Int → α) (table : List α) (entity s : α) (now : Int)
    (hnd : (table.map getId).Nodup) (hmem : s ∈ table) (hid : getId s = getId entity)
    (hv : getVersion s = getVersion entity) :
    ddb_update getId getVersion applyExpr table entity now =
      .ok (table.map (fun e => if getId e = getId entity then applyExpr e entity now else e),
        1) := by
  unfold ddb_update
  rw [find?_of_nodup_mem getId table s (getId entity) hnd hmem hid]
  simp [hv]

/-- After a successful conditional update, get on the key returns the
    rewritten item. -/
lemma ddb_get_after_update {α : Type} (getId : α → String) (applyExpr : α → α → Int → α)
    (table : List α) (entity s : α) (now : Int) (m1 m2 : String)
    (hnd : (table.map getId).Nodup) (hmem : s ∈ table) (hid : getId s = getId entity)
    (hApplyId : ∀ a b n, getId (applyExpr a b n) = getId a) :
    ddb_get getId m1 m2
      (table.map fun e => if getId e = getId entity then applyExpr e entity now else e)
      (getId entity) = .ok (applyExpr s entity now) := by
  unfold ddb_get
  have hp : ∀ a, (fun e => decide (getId e = getId entity))
      ((fun e => if getId e = getId entity then applyExpr e entity now else e) a) =
      (fun e => decide (getId e = getId entity)) a := by
    intro a
    by_cases h : getId a = getId entity
    · simp [h, hApplyId]
    · simp [h]
  rw [filter_map_comm _ _ hp, filter_eq_single_of_nodup getId table s (getId entity) hnd
    hmem hid]
  simp [hid]

/-! ## C9 and C10 -/

/-- C9: for every value of BookStatus, CheckoutStatus, HoldStatus, Role and
    PartyKind, rendering the value with Display and parsing the string back
    with the From String conversion yields the original value, and every
    unrecognized string parses to the fixed default Unknown, CheckedOut,
    OnHold, Regular, Patron respectively, never an error. -/
theorem C9_enum_display_roundtrip :
    (∀ b : BookStatus, BookStatus.fromString (BookStatus.display b) = b) ∧
    (∀ c : CheckoutStatus, CheckoutStatus.fromString (CheckoutStatus.display c) = c) ∧
    (∀ h : HoldStatus, HoldStatus.fromString (HoldStatus.display h) = h) ∧
    (∀ r : Role, Role.fromString (Role.display r) = r) ∧
    (∀ k : PartyKind, PartyKind.fromString (PartyKind.display k) = k) ∧
    (∀ s : String, s ≠ "Available" → s ≠ "CheckedOut" → s ≠ "OnHold" → s ≠ "Deleted" →
      BookStatus.fromString s = BookStatus.Unknown) ∧
    (∀ s : String, s ≠ "CheckedOut" → s ≠ "Returned" →
      CheckoutStatus.fromString s = CheckoutStatus.CheckedOut) ∧
    (∀ s : String, s ≠ "OnHold" → s ≠ "Waiting" → s ≠ "CheckedOut" → s ≠ "Canceled" →
      HoldStatus.fromString s = HoldStatus.OnHold) ∧
    (∀ s : String, s ≠ "Admin" → s ≠ "Regular" → s ≠ "Child" → s ≠ "Employee" →
      s ≠ "Librarian" → Role.fromString s = Role.Regular) ∧
    (∀ s : String, s ≠ "Patron" → s ≠ "Employee" → s ≠ "Branch" → s ≠ "Organization" →
      PartyKind.fromString s = PartyKind.Patron) := by
  refine ⟨?_, ?_, ?_, ?_, ?_, ?_, ?_, ?_, ?_, ?_⟩
  · intro b; cases b <;> rfl
  · intro c; cases c <;> rfl
  · intro h; cases h <;> rfl
  · intro r; cases r <;> rfl
  · intro k; cases k <;> rfl
  · intro s h1 h2 h3 h4; simp [BookStatus.fromString, h1, h2, h3, h4]
  · intro s h1 h2; simp [CheckoutStatus.fromString, h1, h2]
  · intro s h1 h2 h3 h4; simp [HoldStatus.fromString, h1, h2, h3, h4]
  · intro s h1 h2 h3 h4 h5; simp [Role.fromString, h1, h2, h3, h4, h5]
  · intro s h1 h2 h3 h4; simp [PartyKind.fromString, h1, h2, h3, h4]

/-- Witness for C9 at concrete inputs: a round trip and a default case. -/
theorem C9_enum_display_roundtrip_witness :
    BookStatus.fromString (BookStatus.display BookStatus.Deleted) = BookStatus.Deleted ∧
    Role.fromString "bogus" = Role.Regular :=
  ⟨C9_enum_display_roundtrip.1 BookStatus.Deleted,
   C9_enum_display_roundtrip.2.2.2.2.2.2.2.2.1 "bogus" (by decide) (by decide) (by decide)
     (by decide) (by decide)⟩

/-- C10: evaluation of has_exceeded_limit at its failing inputs.  The empty
    body, legal for the function per its Option byte-slice signature, drives
    the loop bound b.len() - 6 into usize underflow and the Rust code panics,
    modelled as none, and any body in which the bytes of ceeded occur as a
    suffix (here the six-byte body that is exactly the pattern) is reported
    as not containing the pattern even though it does, because the loop
    over 0..(len - 6) excludes the final alignment i = len - 6.  An interior
    occurrence is detected, and a None input is handled and yields false. -/
theorem C10_has_exceeded_limit_failing_inputs :
    has_exceeded_limit (some []) = none ∧
    has_exceeded_limit (some [99, 101, 101, 100, 101, 100]) = some false ∧
    bytesContainCeeded [99, 101, 101, 100, 101, 100] = true ∧
    has_exceeded_limit (some [99, 101, 101, 100, 101, 100, 120]) = some true ∧
    has_exceeded_limit none = some false := by
  refine ⟨rfl, ?_, ?_, ?_, rfl⟩ <;> decide

/-! ## C1 -/

/-- C1: for each of the four entity repositories (book, checkout, hold,
    party) and every entity, update fails with the non-retryable
    conditional-write conflict error whenever the stored version for the id
    of the entity differs from the version of the entity (never silently
    overwriting), and succeeds whenever they agree, after which get on the id
    returns a record carrying version plus one. -/
theorem C1_versioned_update_conflict_and_success :
    conditional_check_failed_error.retryable = false ∧
    (∀ (table : List BookEntity) (e s : BookEntity) (now : Int),
      (table.map fun x => x.book_id).Nodup → s ∈ table → s.book_id = e.book_id →
      (s.version ≠ e.version →
        DDBBookRepository.update table e now = .error conditional_check_failed_error) ∧
      (s.version = e.version → ∃ t2,
        DDBBookRepository.update table e now = .ok (t2, 1) ∧ ∃ r,
          DDBBookRepository.get t2 e.book_id = .ok r ∧ r.version = e.version + 1)) ∧
    (∀ (table : List CheckoutEntity) (e s : CheckoutEntity) (now : Int),
      (table.map fun x => x.checkout_id).Nodup → s ∈ table → s.checkout_id = e.checkout_id →
      (s.version ≠ e.version →
        DDBCheckoutRepository.update table e now = .error conditional_check_failed_error) ∧
      (s.version = e.version → ∃ t2,
        DDBCheckoutRepository.update table e now = .ok (t2, 1) ∧ ∃ r,
          DDBCheckoutRepository.get t2 e.checkout_id = .ok r ∧ r.version = e.version + 1)) ∧
    (∀ (table : List HoldEntity) (e s : HoldEntity) (now : Int),
      (table.map fun x => x.hold_id).Nodup → s ∈ table → s.hold_id = e.hold_id →
      (s.version ≠ e.version →
        DDBHoldRepository.update table e now = .error conditional_check_failed_error) ∧
      (s.version = e.version → ∃ t2,
        DDBHoldRepository.update table e now = .ok (t2, 1) ∧ ∃ r,
          DDBHoldRepository.get t2 e.hold_id = .ok r ∧ r.version = e.version + 1)) ∧
    (∀ (table : List PartyEntity) (e s : PartyEntity) (now : Int),
      (table.map fun x => x.party_id).Nodup → s ∈ table → s.party_id = e.party_id →
      (s.version ≠ e.version →
        DDBPartyRepository.update table e now = .error conditional_check_failed_error) ∧
      (s.version = e.version → ∃ t2,
        DDBPartyRepository.update table e now = .ok (t2, 1) ∧ ∃ r,
          DDBPartyRepository.get t2 e.party_id = .ok r ∧ r.version = e.version + 1)) := by
  refine ⟨by rfl, ?_, ?_, ?_, ?_⟩
  · intro table e s now hnd hmem hid
    refine ⟨fun hv => ?_, fun hv => ?_⟩
    · exact ddb_update_conflict _ _ _ table e s now
        (find?_of_nodup_mem (fun x => x.book_id) table s e.book_id hnd hmem hid) hv
    · unfold DDBBookRepository.update DDBBookRepository.get
      refine ⟨_, ddb_update_success (fun x => x.book_id) (fun x => x.version)
        apply_book_update_expr table e s now hnd hmem hid hv,
        apply_book_update_expr s e now, ?_, rfl⟩
      exact ddb_get_after_update (fun x : BookEntity => x.book_id) apply_book_update_expr table e s now
        _ _ hnd hmem hid (fun a b n => rfl)
  · intro table e s now hnd hmem hid
    refine ⟨fun hv => ?_, fun hv => ?_⟩
    · exact ddb_update_conflict _ _ _ table e s now
        (find?_of_nodup_mem (fun x => x.checkout_id) table s e.checkout_id hnd hmem hid) hv
    · unfold DDBCheckoutRepository.update DDBCheckoutRepository.get
      refine ⟨_, ddb_update_success (fun x => x.checkout_id) (fun x => x.version)
        apply_checkout_update_expr table e s now hnd hmem hid hv,
        apply_checkout_update_expr s e now, ?_, rfl⟩
      exact ddb_get_after_update (fun x : CheckoutEntity => x.checkout_id) apply_checkout_update_expr table
        e s now _ _ hnd hmem hid (fun a b n => rfl)
  · intro table e s now hnd hmem hid
    refine ⟨fun hv => ?_, fun hv => ?_⟩
    · exact ddb_update_conflict _ _ _ table e s now
        (find?_of_nodup_mem (fun x => x.hold_id) table s e.hold_id hnd hmem hid) hv
    · unfold DDBHoldRepository.update DDBHoldRepository.get
      refine ⟨_, ddb_update_success (fun x => x.hold_id) (fun x => x.version)
        apply_hold_update_expr table e s now hnd hmem hid hv,
        apply_hold_update_expr s e now, ?_, rfl⟩
      exact ddb_get_after_update (fun x : HoldEntity => x.hold_id) apply_hold_update_expr table e s now
        _ _ hnd hmem hid (fun a b n => rfl)
  · intro table e s now hnd hmem hid
    refine ⟨fun hv => ?_, fun hv => ?_⟩
    · exact ddb_update_conflict _ _ _ table e s now
        (find?_of_nodup_mem (fun x => x.party_id) table s e.party_id hnd hmem hid) hv
    · unfold DDBPartyRepository.update DDBPartyRepository.get
      refine ⟨_, ddb_update_success (fun x => x.party_id) (fun x => x.version)
        apply_party_update_expr table e s now hnd hmem hid hv,
        apply_party_update_expr s e now, ?_, rfl⟩
      exact ddb_get_after_update (fun x : PartyEntity => x.party_id) apply_party_update_expr table e s now
        _ _ hnd hmem hid (fun a b n => rfl)

/-- Witness for C1 on the checkout repository at concrete inputs: a stale
    version is rejected and the matching version bumps the stored version. -/
theorem C1_versioned_update_witness :
    DDBCheckoutRepository.update [sample_checkout] { sample_checkout with version := 3 } 9 =
      .error conditional_check_failed_error ∧
    (∃ t2, DDBCheckoutRepository.update [sample_checkout] sample_checkout 9 = .ok (t2, 1) ∧
      ∃ r, DDBCheckoutRepository.get t2 sample_checkout.checkout_id = .ok r ∧
        r.version = sample_checkout.version + 1) :=
  ⟨(C1_versioned_update_conflict_and_success.2.2.1 [sample_checkout]
      { sample_checkout with version := 3 } sample_checkout 9 (by decide)
      (List.mem_singleton.mpr rfl) rfl).1 (by decide),
   (C1_versioned_update_conflict_and_success.2.2.1 [sample_checkout] sample_checkout
      sample_checkout 9 (by decide) (List.mem_singleton.mpr rfl) rfl).2 rfl⟩

/-! ## Query characterization lemmas -/

/-- Every record of the two-key checkout query comes from the table, has the
    defaulted CheckedOut status, and matches both keys. -/
lemma checkout_query_two_key_mem (checkouts : List CheckoutEntity) (p b : String) (n : Nat)
    (x : CheckoutEntity)
    (hx : x ∈ (DDBCheckoutRepository.query checkouts
      [("patron_id", p), ("book_id", b)] n).records) :
    x ∈ checkouts ∧ x.checkout_status = CheckoutStatus.CheckedOut ∧
      x.patron_id = p ∧ x.book_id = b := by
  have hrw : (DDBCheckoutRepository.query checkouts
      [("patron_id", p), ("book_id", b)] n).records =
      ((checkouts.filter fun e =>
        CheckoutStatus.display e.checkout_status = "CheckedOut" && e.patron_id = p).take
        (min n 500)).filter (fun e => checkout_filter_matches e "book_id" b && true) := rfl
  rw [hrw] at hx
  have hx1 := List.mem_filter.mp hx
  have hx2 := List.mem_filter.mp (List.take_subset _ _ hx1.1)
  have hkey := hx2.2
  rw [Bool.and_eq_true, decide_eq_true_eq, decide_eq_true_eq] at hkey
  have hflt := hx1.2
  rw [Bool.and_eq_true,
    show checkout_filter_matches x "book_id" b = decide (x.book_id = b) from rfl,
    decide_eq_true_eq] at hflt
  refine ⟨hx2.1, ?_, hkey.2, hflt.1⟩
  have hds : CheckoutStatus.display x.checkout_status =
      CheckoutStatus.display CheckoutStatus.CheckedOut := hkey.1
  exact checkout_status_display_inj hds

/-- Every record of the two-key hold query comes from the table, has the
    defaulted OnHold status, and matches both keys. -/
lemma hold_query_two_key_mem (holds : List HoldEntity) (p b : String) (n : Nat)
    (x : HoldEntity)
    (hx : x ∈ (DDBHoldRepository.query holds [("patron_id", p), ("book_id", b)] n).records) :
    x ∈ holds ∧ x.hold_status = HoldStatus.OnHold ∧ x.patron_id = p ∧ x.book_id = b := by
  have hrw : (DDBHoldRepository.query holds [("patron_id", p), ("book_id", b)] n).records =
      ((holds.filter fun e =>
        HoldStatus.display e.hold_status = "OnHold" && e.patron_id = p).take
        (min n 500)).filter (fun e => hold_filter_matches e "book_id" b && true) := rfl
  rw [hrw] at hx
  have hx1 := List.mem_filter.mp hx
  have hx2 := List.mem_filter.mp (List.take_subset _ _ hx1.1)
  have hkey := hx2.2
  rw [Bool.and_eq_true, decide_eq_true_eq, decide_eq_true_eq] at hkey
  have hflt := hx1.2
  rw [Bool.and_eq_true,
    show hold_filter_matches x "book_id" b = decide (x.book_id = b) from rfl,
    decide_eq_true_eq] at hflt
  refine ⟨hx2.1, ?_, hkey.2, hflt.1⟩
  have hds : HoldStatus.display x.hold_status = HoldStatus.display HoldStatus.OnHold := hkey.1
  exact hold_status_display_inj hds

/-- The two-key checkout query is empty when no CheckedOut row matches both
    keys. -/
lemma checkout_query_two_key_nil (checkouts : List CheckoutEntity) (p b : String) (n : Nat)
    (hnone : ∀ e ∈ checkouts, e.patron_id = p → e.book_id = b →
      e.checkout_status ≠ CheckoutStatus.CheckedOut) :
    (DDBCheckoutRepository.query checkouts [("patron_id", p), ("book_id", b)] n).records =
      [] := by
  refine List.eq_nil_iff_forall_not_mem.mpr fun x hx => ?_
  obtain ⟨hmem, hstat, hpp, hbb⟩ := checkout_query_two_key_mem checkouts p b n x hx
  exact hnone x hmem hpp hbb hstat

/-- The two-key hold query is empty when no OnHold row matches both keys. -/
lemma hold_query_two_key_nil (holds : List HoldEntity) (p b : String) (n : Nat)
    (hnone : ∀ e ∈ holds, e.patron_id = p → e.book_id = b →
      e.hold_status ≠ HoldStatus.OnHold) :
    (DDBHoldRepository.query holds [("patron_id", p), ("book_id", b)] n).records = [] := by
  refine List.eq_nil_iff_forall_not_mem.mpr fun x hx => ?_
  obtain ⟨hmem, hstat, hpp, hbb⟩ := hold_query_two_key_mem holds p b n x hx
  exact hnone x hmem hpp hbb hstat

/-- find_first returns NotFound when its query has no records. -/
lemma find_first_of_nil (checkouts : List CheckoutEntity) (p b : String)
    (hnil : (DDBCheckoutRepository.query checkouts
      [("patron_id", p), ("book_id", b)] 10).records = []) :
    CheckoutServiceImpl.find_first checkouts p b =
      .error (LibraryError.not_found
        ("checkout with id " ++ b ++ " for patron " ++ p ++ " not found")) := by
  unfold CheckoutServiceImpl.find_first
  rw [hnil]
  rfl

/-- A successful get returns an entity carrying the requested id. -/
lemma ddb_get_ok_id {α : Type} (getId : α → String) (m1 m2 : String) (table : List α)
    (id : String) (e : α) (h : ddb_get getId m1 m2 table id = .ok e) : getId e = id := by
  unfold ddb_get at h
  split at h
  · simp at h
  · split at h
    next x hx =>
      have hxm : x ∈ (table.filter fun a => getId a = id).take 2 := List.mem_of_mem_head? hx
      have hxf := List.mem_filter.mp (List.take_subset _ _ hxm)
      simp only [Except.ok.injEq] at h
      subst h
      simpa using hxf.2
    next hx => simp at h

/-- A resolved patron carries the requested id. -/
lemma find_patron_ok_id (parties : List PartyEntity) (id : String) (p : PatronDto)
    (h : PatronServiceImpl.find_patron_by_id parties id = .ok p) : p.patron_id = id := by
  unfold PatronServiceImpl.find_patron_by_id at h
  cases hg : DDBPartyRepository.get parties id with
  | error e => rw [hg] at h; simp [Except.map] at h
  | ok q =>
    rw [hg] at h
    simp only [Except.map, Except.ok.injEq] at h
    subst h
    exact ddb_get_ok_id (fun x : PartyEntity => x.party_id)
      ("too many parties for " ++ id) ("party not found for " ++ id) parties id q hg

/-- A resolved book carries the requested id. -/
lemma find_book_ok_id (books : List BookEntity) (id : String) (bk : BookDto)
    (h : CatalogServiceImpl.find_book_by_id books id = .ok bk) : bk.book_id = id := by
  unfold CatalogServiceImpl.find_book_by_id at h
  cases hg : DDBBookRepository.get books id with
  | error e => rw [hg] at h; simp [Except.map] at h
  | ok q =>
    rw [hg] at h
    simp only [Except.map, Except.ok.injEq] at h
    subst h
    exact ddb_get_ok_id (fun x : BookEntity => x.book_id)
      ("too many books for " ++ id) ("book item not found for " ++ id) books id q hg

/-! ## C2, C3, C5, C7 -/

/-- C2: whenever patron and book both resolve and the book status is any
    value other than Available, checkout and hold both fail with a Validation
    error carrying reason code 400, and the returned state equals the input
    state: no checkout or hold row is created and no event is published. -/
theorem C2_unavailable_book_rejected (branch_id : String) (st : LibraryState)
    (patron_id book_id fresh_id : String) (now : Int) (patron : PatronDto) (book : BookDto)
    (hp : PatronServiceImpl.find_patron_by_id st.parties patron_id = .ok patron)
    (hb : CatalogServiceImpl.find_book_by_id st.books book_id = .ok book)
    (hs : book.book_status ≠ BookStatus.Available) :
    CheckoutServiceImpl.checkout branch_id st patron_id book_id fresh_id now =
      (.error (LibraryError.validation ("book is not available " ++ book.book_id)
        (some "400")), st) ∧
    HoldServiceImpl.hold branch_id st patron_id book_id fresh_id now =
      (.error (LibraryError.validation ("book is not available " ++ book.book_id)
        (some "400")), st) := by
  refine ⟨?_, ?_⟩
  · unfold CheckoutServiceImpl.checkout
    rw [hp, hb]
    simp [hs]
  · unfold HoldServiceImpl.hold
    rw [hp, hb]
    simp [hs]

/-- Witness for C2: checking out or holding the already checked-out book
    book-2 is rejected with Validation 400 and leaves the state unchanged. -/
theorem C2_unavailable_book_rejected_witness :
    CheckoutServiceImpl.checkout "branch-1" sample_state "patron-1" "book-2" "co-9" 100 =
      (.error (LibraryError.validation
        ("book is not available " ++ (BookDto.from_entity sample_book_checkedout).book_id)
        (some "400")), sample_state) ∧
    HoldServiceImpl.hold "branch-1" sample_state "patron-1" "book-2" "co-9" 100 =
      (.error (LibraryError.validation
        ("book is not available " ++ (BookDto.from_entity sample_book_checkedout).book_id)
        (some "400")), sample_state) :=
  C2_unavailable_book_rejected "branch-1" sample_state "patron-1" "book-2" "co-9" 100
    (PatronDto.from_party sample_party) (BookDto.from_entity sample_book_checkedout)
    (by rfl) (by rfl) (by decide)

/-- C3: whenever patron and book both resolve, the book is Available and
    restricted, checkout and hold fail with Validation exactly when the
    patron is regular, and both succeed for a patron that is not regular
    (assuming the generated id is fresh so the conditional create passes);
    moreover is_regular holds exactly when the role set is empty or holds
    the Regular role. -/
theorem C3_restricted_book_regular_patron (branch_id : String) (st : LibraryState)
    (patron_id book_id fresh_id : String) (now : Int) (patron : PatronDto) (book : BookDto)
    (hp : PatronServiceImpl.find_patron_by_id st.parties patron_id = .ok patron)
    (hb : CatalogServiceImpl.find_book_by_id st.books book_id = .ok book)
    (hs : book.book_status = BookStatus.Available) (hr : book.restricted = true) :
    (patron.is_regular = true →
      CheckoutServiceImpl.checkout branch_id st patron_id book_id fresh_id now =
        (.error (LibraryError.validation ("patron " ++ patron.patron_id ++
          " cannot hold restricted books " ++ book.book_id) (some "400")), st) ∧
      HoldServiceImpl.hold branch_id st patron_id book_id fresh_id now =
        (.error (LibraryError.validation ("patron " ++ patron.patron_id ++
          " cannot hold restricted books " ++ book.book_id) (some "400")), st)) ∧
    (patron.is_regular = false →
      ((∀ e ∈ st.checkouts, e.checkout_id ≠ fresh_id) →
        (CheckoutServiceImpl.checkout branch_id st patron_id book_id fresh_id now).1 =
          .ok (CheckoutDto.from_patron_book branch_id patron book fresh_id now)) ∧
      ((∀ e ∈ st.holds, e.hold_id ≠ fresh_id) →
        (HoldServiceImpl.hold branch_id st patron_id book_id fresh_id now).1 =
          .ok (HoldDto.from_entity
            (hold_from_patron_book branch_id patron book fresh_id now)))) ∧
    (patron.is_regular = true ↔
      patron.group_roles = [] ∨ Role.Regular ∈ patron.group_roles) := by
  refine ⟨fun hreg => ⟨?_, ?_⟩, fun hreg => ⟨fun hfree => ?_, fun hfree => ?_⟩, ?_⟩
  · unfold CheckoutServiceImpl.checkout
    rw [hp, hb]
    simp [hs, hr, hreg]
  · unfold HoldServiceImpl.hold
    rw [hp, hb]
    simp [hs, hr, hreg]
  · unfold CheckoutServiceImpl.checkout
    rw [hp, hb]
    have hany : st.checkouts.any
        (fun e => e.checkout_id = (CheckoutEntity.from_dto
          (CheckoutDto.from_patron_book branch_id patron book fresh_id now)).checkout_id) =
        false := by
      simp only [List.any_eq_false, decide_eq_true_eq]
      intro e he
      exact hfree e he
    simp [hs, hreg, DDBCheckoutRepository.create, ddb_create, hany]
  · unfold HoldServiceImpl.hold
    rw [hp, hb]
    have hany : st.holds.any
        (fun e => e.hold_id =
          (hold_from_patron_book branch_id patron book fresh_id now).hold_id) = false := by
      simp only [List.any_eq_false, decide_eq_true_eq]
      intro e he
      exact hfree e he
    simp [hs, hreg, DDBHoldRepository.create, ddb_create, hany]
  · unfold PatronDto.is_regular PatronDto.is_role
    simp [List.isEmpty_iff, List.any_eq_true]

/-- Witness for C3: the regular patron patron-1 is rejected on the restricted
    book book-3 while the librarian patron-2 checks it out successfully. -/
theorem C3_restricted_book_regular_patron_witness :
    CheckoutServiceImpl.checkout "branch-1" sample_state "patron-1" "book-3" "co-9" 100 =
      (.error (LibraryError.validation
        ("patron " ++ (PatronDto.from_party sample_party).patron_id ++
          " cannot hold restricted books " ++
          (BookDto.from_entity sample_book_restricted).book_id) (some "400")),
        sample_state) ∧
    (CheckoutServiceImpl.checkout "branch-1" sample_state "patron-2" "book-3" "co-9" 100).1 =
      .ok (CheckoutDto.from_patron_book "branch-1"
        (PatronDto.from_party sample_party_librarian)
        (BookDto.from_entity sample_book_restricted) "co-9" 100) :=
  ⟨((C3_restricted_book_regular_patron "branch-1" sample_state "patron-1" "book-3" "co-9" 100
      (PatronDto.from_party sample_party) (BookDto.from_entity sample_book_restricted)
      (by rfl) (by rfl) (by rfl) (by rfl)).1 (by decide)).1,
   (((C3_restricted_book_regular_patron "branch-1" sample_state "patron-2" "book-3" "co-9" 100
      (PatronDto.from_party sample_party_librarian)
      (BookDto.from_entity sample_book_restricted)
      (by rfl) (by rfl) (by rfl) (by rfl)).2.1 (by decide)).1 (by simp [sample_state]))⟩

/-- C5: whenever patron and book both resolve but no checkout row matches the
    (patron, book) pair, returned fails with NotFound and the returned state
    equals the input state: returning a book never checked out is an error,
    not a no-op, and nothing stored changes. -/
theorem C5_return_unknown_checkout_not_found (st : LibraryState)
    (patron_id book_id : String) (now : Int) (patron : PatronDto) (book : BookDto)
    (hp : PatronServiceImpl.find_patron_by_id st.parties patron_id = .ok patron)
    (hb : CatalogServiceImpl.find_book_by_id st.books book_id = .ok book)
    (hnone : ∀ e ∈ st.checkouts, ¬(e.patron_id = patron_id ∧ e.book_id = book_id)) :
    CheckoutServiceImpl.returned st patron_id book_id now =
      (.error (LibraryError.not_found ("checkout with id " ++ book_id ++ " for patron " ++
        patron_id ++ " not found")), st) := by
  unfold CheckoutServiceImpl.returned
  rw [hp, hb]
  have hff := find_first_of_nil st.checkouts patron_id book_id
    (checkout_query_two_key_nil st.checkouts patron_id book_id 10
      (fun e he hpp hbb _ => hnone e he ⟨hpp, hbb⟩))
  rw [hff]

/-- Witness for C5: returning book-1 for patron-1 in the baseline state with
    an empty checkout table fails with NotFound and changes nothing. -/
theorem C5_return_unknown_checkout_not_found_witness :
    CheckoutServiceImpl.returned sample_state "patron-1" "book-1" 100 =
      (.error (LibraryError.not_found
        ("checkout with id " ++ "book-1" ++ " for patron " ++ "patron-1" ++ " not found")),
        sample_state) :=
  C5_return_unknown_checkout_not_found sample_state "patron-1" "book-1" 100
    (PatronDto.from_party sample_party) (BookDto.from_entity sample_book)
    (by rfl) (by rfl) (by simp [sample_state])

/-- C7: every checkout record produced by a successful checkout call has
    status CheckedOut, returned_at null, version 0, and due_at equal to
    checkout_at plus exactly 15 days. -/
theorem C7_checkout_record_shape (branch_id : String) (st : LibraryState)
    (patron_id book_id fresh_id : String) (now : Int) (dto : CheckoutDto)
    (h : (CheckoutServiceImpl.checkout branch_id st patron_id book_id fresh_id now).1 =
      .ok dto) :
    dto.checkout_status = CheckoutStatus.CheckedOut ∧ dto.returned_at = none ∧
    dto.version = 0 ∧ dto.due_at = dto.checkout_at + duration_days 15 := by
  simp only [CheckoutServiceImpl.checkout] at h
  split at h
  · simp at h
  · split at h
    · simp at h
    · split at h
      · simp at h
      · split at h
        · simp at h
        · split at h
          · simp at h
          · simp only [Except.ok.injEq] at h
            subst h
            exact ⟨rfl, rfl, rfl, rfl⟩

/-- Witness for C7 at a concrete successful checkout. -/
theorem C7_checkout_record_shape_witness :
    (CheckoutDto.from_patron_book "branch-1" (PatronDto.from_party sample_party)
      (BookDto.from_entity sample_book) "co-9" 100).checkout_status =
        CheckoutStatus.CheckedOut ∧
    (CheckoutDto.from_patron_book "branch-1" (PatronDto.from_party sample_party)
      (BookDto.from_entity sample_book) "co-9" 100).returned_at = none ∧
    (CheckoutDto.from_patron_book "branch-1" (PatronDto.from_party sample_party)
      (BookDto.from_entity sample_book) "co-9" 100).version = 0 ∧
    (CheckoutDto.from_patron_book "branch-1" (PatronDto.from_party sample_party)
      (BookDto.from_entity sample_book) "co-9" 100).due_at =
      (CheckoutDto.from_patron_book "branch-1" (PatronDto.from_party sample_party)
        (BookDto.from_entity sample_book) "co-9" 100).checkout_at + duration_days 15 :=
  C7_checkout_record_shape "branch-1" sample_state "patron-1" "book-1" "co-9" 100 _ (by rfl)

/-! ## C6 -/

/-- A bound key lies among the map keys. -/
lemma strMapGet_some_keys (l : List (String × String)) (k v : String)
    (h : strMapGet l k = some v) : k ∈ l.map Prod.fst := by
  induction l with
  | nil => simp [strMapGet] at h
  | cons p rest ih =>
    by_cases hp : p.1 = k
    · simp [hp]
    · rw [show strMapGet (p :: rest) k = if p.1 = k then some p.2 else strMapGet rest k
        from rfl, if_neg hp] at h
      simp [ih h]

/-- Lookup after insert: the inserted key reads back its value; other keys
    are unaffected. -/
lemma strMapGet_insert (m : List (String × String)) (a v k : String) :
    strMapGet (strMapInsert m a v) k = if a = k then some v else strMapGet m k := by
  unfold strMapInsert
  rw [show strMapGet ((a, v) :: m.filter fun kv => kv.1 ≠ a) k =
    if a = k then some v else strMapGet (m.filter fun kv => kv.1 ≠ a) k from rfl]
  by_cases hak : a = k
  · simp [hak]
  · rw [if_neg hak, if_neg hak]
    induction m with
    | nil => rfl
    | cons p rest ih =>
      by_cases hpa : p.1 = a
      · have hpk : ¬(p.1 = k) := by rw [hpa]; exact hak
        rw [show (p :: rest).filter (fun kv => kv.1 ≠ a) =
          rest.filter (fun kv => kv.1 ≠ a) from by simp [List.filter_cons, hpa]]
        rw [show strMapGet (p :: rest) k = if p.1 = k then some p.2 else strMapGet rest k
          from rfl, if_neg hpk]
        exact ih
      · rw [show (p :: rest).filter (fun kv => kv.1 ≠ a) =
          p :: rest.filter (fun kv => kv.1 ≠ a) from by simp [List.filter_cons, hpa]]
        rw [show strMapGet (p :: rest.filter fun kv => kv.1 ≠ a) k =
          if p.1 = k then some p.2 else strMapGet (rest.filter fun kv => kv.1 ≠ a) k
          from rfl]
        rw [show strMapGet (p :: rest) k = if p.1 = k then some p.2 else strMapGet rest k
          from rfl]
        by_cases hpk : p.1 = k
        · simp [hpk]
        · rw [if_neg hpk, if_neg hpk]
          exact ih

/-- Lookup over a fold of inserts with pairwise distinct inserted keys: the
    inserted binding wins when present, else the initial map answers. -/
lemma strMapGet_foldl_insert (entries : List (String × String))
    (init : List (String × String)) (k : String)
    (hnd : (entries.map Prod.fst).Nodup) :
    strMapGet (entries.foldl (fun acc kv => strMapInsert acc kv.1 kv.2) init) k =
      (strMapGet entries k).elim (strMapGet init k) some := by
  induction entries generalizing init with
  | nil => simp [strMapGet]
  | cons kv rest ih =>
    rw [List.foldl_cons]
    have hnd2 : (rest.map Prod.fst).Nodup := (List.nodup_cons.mp hnd).2
    rw [ih (strMapInsert init kv.1 kv.2) hnd2]
    cases hrest : strMapGet rest k with
    | some v =>
      have hkkeys : k ∈ rest.map Prod.fst := strMapGet_some_keys rest k v hrest
      have hne : kv.1 ≠ k := fun hcl => (List.nodup_cons.mp hnd).1 (hcl ▸ hkkeys)
      rw [show strMapGet (kv :: rest) k = if kv.1 = k then some kv.2 else strMapGet rest k
        from rfl, if_neg hne, hrest]
      rfl
    | none =>
      rw [strMapGet_insert init kv.1 kv.2 k]
      rw [show strMapGet (kv :: rest) k = if kv.1 = k then some kv.2 else strMapGet rest k
        from rfl, hrest]
      by_cases hk : kv.1 = k
      · simp [hk]
      · simp [hk]

/-- C6 counterexample: the claim says the caller predicate cannot override
    the forced status constraint, only the forced date bound; but the merge
    inserts every caller entry over the forced map, so a caller-supplied
    checkout_status (or hold_status) silently replaces the forced value. -/
theorem C6_counterexample_caller_overrides_status :
    strMapGet (DDBCheckoutRepository.overdue_predicate 0 [("checkout_status", "Returned")])
      "checkout_status" = some "Returned" ∧
    strMapGet (DDBCheckoutRepository.overdue_predicate 0 [("checkout_status", "Returned")])
      "checkout_status" ≠ some (CheckoutStatus.display CheckoutStatus.CheckedOut) ∧
    strMapGet (DDBHoldRepository.expired_predicate 0 [("hold_status", "Canceled")])
      "hold_status" = some "Canceled" := by
  refine ⟨rfl, ?_, rfl⟩
  decide

/-- C6 as amended: query_overdue builds its predicate from the forced entries
    checkout_status = CheckedOut and due_at at most now (query_expired from
    hold_status = OnHold and expires_at at most now) and then inserts every
    caller entry, last-write-wins by key for every key: any caller-supplied
    key, the forced status key included and not only the forced date bound,
    silently overwrites the forced entry, while keys the caller does not
    supply keep the forced values. -/
theorem C6_forced_predicate_merge_last_write_wins (now : Int)
    (predicate : List (String × String)) (hnd : (predicate.map Prod.fst).Nodup)
    (k : String) :
    strMapGet (DDBCheckoutRepository.overdue_predicate now predicate) k =
      (strMapGet predicate k).elim
        (strMapGet [("checkout_status", CheckoutStatus.display CheckoutStatus.CheckedOut),
          ("due_at:<=", date_display now)] k) some ∧
    strMapGet (DDBHoldRepository.expired_predicate now predicate) k =
      (strMapGet predicate k).elim
        (strMapGet [("hold_status", HoldStatus.display HoldStatus.OnHold),
          ("expires_at:<=", date_display now)] k) some :=
  ⟨strMapGet_foldl_insert predicate _ k hnd, strMapGet_foldl_insert predicate _ k hnd⟩

/-- Witness for the amended C6: a caller predicate without the status key
    keeps the forced value, and one with it overrides the forced value. -/
theorem C6_forced_predicate_merge_witness :
    strMapGet (DDBCheckoutRepository.overdue_predicate 3 [("book_id", "b7")])
      "checkout_status" =
      (strMapGet [("book_id", "b7")] "checkout_status").elim
        (strMapGet [("checkout_status", CheckoutStatus.display CheckoutStatus.CheckedOut),
          ("due_at:<=", date_display 3)] "checkout_status") some ∧
    strMapGet (DDBCheckoutRepository.overdue_predicate 3 [("checkout_status", "Returned")])
      "checkout_status" =
      (strMapGet [("checkout_status", "Returned")] "checkout_status").elim
        (strMapGet [("checkout_status", CheckoutStatus.display CheckoutStatus.CheckedOut),
          ("due_at:<=", date_display 3)] "checkout_status") some :=
  ⟨(C6_forced_predicate_merge_last_write_wins 3 [("book_id", "b7")] (by decide)
      "checkout_status").1,
   (C6_forced_predicate_merge_last_write_wins 3 [("checkout_status", "Returned")] (by decide)
      "checkout_status").1⟩

/-! ## C8 -/

/-- Definitional normal form of the checkout query records for an arbitrary
    predicate. -/
lemma checkout_query_records_eq (table : List CheckoutEntity)
    (pred : List (String × String)) (n : Nat) :
    (DDBCheckoutRepository.query table pred n).records =
      ((table.filter fun e =>
        CheckoutStatus.display e.checkout_status =
          ((strMapGet pred "checkout_status").getD
            (CheckoutStatus.display CheckoutStatus.CheckedOut)) &&
          match strMapGet pred "patron_id" with
          | some pid => e.patron_id = pid
          | none => true).take (min n 500)).filter
        (fun e => (pred.filter fun kv => kv.1 ≠ "checkout_status" ∧ kv.1 ≠ "patron_id").all
          fun kv => checkout_filter_matches e kv.1 kv.2) := rfl

/-- Definitional normal form of the hold query records for an arbitrary
    predicate. -/
lemma hold_query_records_eq (table : List HoldEntity) (pred : List (String × String))
    (n : Nat) :
    (DDBHoldRepository.query table pred n).records =
      ((table.filter fun e =>
        HoldStatus.display e.hold_status =
          ((strMapGet pred "hold_status").getD (HoldStatus.display HoldStatus.OnHold)) &&
          match strMapGet pred "patron_id" with
          | some pid => e.patron_id = pid
          | none => true).take (min n 500)).filter
        (fun e => (pred.filter fun kv => kv.1 ≠ "hold_status" ∧ kv.1 ≠ "patron_id").all
          fun kv => hold_filter_matches e kv.1 kv.2) := rfl

/-- Records of a checkout query whose predicate lacks the status key all have
    the defaulted CheckedOut status. -/
lemma checkout_query_default_status (table : List CheckoutEntity)
    (pred : List (String × String)) (n : Nat)
    (hnone : strMapGet pred "checkout_status" = none) :
    ∀ x ∈ (DDBCheckoutRepository.query table pred n).records,
      x.checkout_status = CheckoutStatus.CheckedOut := by
  intro x hx
  rw [checkout_query_records_eq] at hx
  have hx1 := List.mem_filter.mp hx
  have hx2 := List.mem_filter.mp (List.take_subset _ _ hx1.1)
  have hkey := hx2.2
  rw [hnone, Bool.and_eq_true] at hkey
  have hd := hkey.1
  rw [decide_eq_true_eq] at hd
  have hds : CheckoutStatus.display x.checkout_status =
      CheckoutStatus.display CheckoutStatus.CheckedOut := hd
  exact checkout_status_display_inj hds

/-- Records of a hold query whose predicate lacks the status key all have the
    defaulted OnHold status. -/
lemma hold_query_default_status (table : List HoldEntity) (pred : List (String × String))
    (n : Nat) (hnone : strMapGet pred "hold_status" = none) :
    ∀ x ∈ (DDBHoldRepository.query table pred n).records,
      x.hold_status = HoldStatus.OnHold := by
  intro x hx
  rw [hold_query_records_eq] at hx
  have hx1 := List.mem_filter.mp hx
  have hx2 := List.mem_filter.mp (List.take_subset _ _ hx1.1)
  have hkey := hx2.2
  rw [hnone, Bool.and_eq_true] at hkey
  have hd := hkey.1
  rw [decide_eq_true_eq] at hd
  have hds : HoldStatus.display x.hold_status = HoldStatus.display HoldStatus.OnHold := hd
  exact hold_status_display_inj hds

/-- C8: when the predicate passed to the checkout (respectively hold)
    repository query carries no checkout_status (respectively hold_status)
    key, the query defaults that key to CheckedOut (respectively OnHold), so
    the service lookups only ever find active records: calling returned again
    when every checkout row of the pair is already Returned fails with
    NotFound and changes nothing, and cancel or hold-to-checkout conversion
    when every hold row of the pair is already in a terminal status fails
    with NotFound and changes nothing, rather than succeeding idempotently. -/
theorem C8_status_defaulting_and_terminal_lookups :
    (∀ (table : List CheckoutEntity) (pred : List (String × String)) (n : Nat),
      strMapGet pred "checkout_status" = none →
      ∀ x ∈ (DDBCheckoutRepository.query table pred n).records,
        x.checkout_status = CheckoutStatus.CheckedOut) ∧
    (∀ (table : List HoldEntity) (pred : List (String × String)) (n : Nat),
      strMapGet pred "hold_status" = none →
      ∀ x ∈ (DDBHoldRepository.query table pred n).records,
        x.hold_status = HoldStatus.OnHold) ∧
    (∀ (st : LibraryState) (patron_id book_id : String) (now : Int) (patron : PatronDto)
      (book : BookDto),
      PatronServiceImpl.find_patron_by_id st.parties patron_id = .ok patron →
      CatalogServiceImpl.find_book_by_id st.books book_id = .ok book →
      (∀ e ∈ st.checkouts, e.patron_id = patron_id → e.book_id = book_id →
        e.checkout_status = CheckoutStatus.Returned) →
      CheckoutServiceImpl.returned st patron_id book_id now =
        (.error (LibraryError.not_found ("checkout with id " ++ book_id ++ " for patron " ++
          patron_id ++ " not found")), st)) ∧
    (∀ (st : LibraryState) (patron_id book_id : String) (now : Int) (patron : PatronDto)
      (book : BookDto),
      PatronServiceImpl.find_patron_by_id st.parties patron_id = .ok patron →
      CatalogServiceImpl.find_book_by_id st.books book_id = .ok book →
      (∀ e ∈ st.holds, e.patron_id = patron_id → e.book_id = book_id →
        e.hold_status ≠ HoldStatus.OnHold) →
      HoldServiceImpl.cancel st patron_id book_id now =
        (.error (LibraryError.not_found ("book with id " ++ book.book_id ++ " for patron " ++
          patron.patron_id ++ " not found")), st) ∧
      HoldServiceImpl.checkout st patron_id book_id now =
        (.error (LibraryError.not_found ("book with id " ++ book.book_id ++ " for patron " ++
          patron.patron_id ++ " not found")), st)) := by
  refine ⟨checkout_query_default_status, hold_query_default_status, ?_, ?_⟩
  · intro st patron_id book_id now patron book hp hb hret
    unfold CheckoutServiceImpl.returned
    rw [hp, hb]
    have hff := find_first_of_nil st.checkouts patron_id book_id
      (checkout_query_two_key_nil st.checkouts patron_id book_id 10
        (fun e he hpp hbb => by rw [hret e he hpp hbb]; simp))
    rw [hff]
  · intro st patron_id book_id now patron book hp hb hterm
    have hpid := find_patron_ok_id st.parties patron_id patron hp
    have hbid := find_book_ok_id st.books book_id book hb
    have hnil : (DDBHoldRepository.query st.holds
        [("patron_id", patron.patron_id), ("book_id", book.book_id)] 10).records = [] := by
      refine hold_query_two_key_nil _ _ _ _ ?_
      intro e he hpp hbb
      exact hterm e he (hpid ▸ hpp) (hbid ▸ hbb)
    constructor
    · simp only [HoldServiceImpl.cancel, hp, hb, hnil]
      rfl
    · simp only [HoldServiceImpl.checkout, hp, hb, hnil]
      rfl

/-- Witness for C8: in states whose only matching checkout row is Returned
    and whose only matching hold row is Canceled, returned and cancel both
    fail with NotFound and leave the state unchanged. -/
theorem C8_status_defaulting_witness :
    CheckoutServiceImpl.returned sample_state_returned "patron-1" "book-1" 50 =
      (.error (LibraryError.not_found ("checkout with id " ++ "book-1" ++ " for patron " ++
        "patron-1" ++ " not found")), sample_state_returned) ∧
    HoldServiceImpl.cancel sample_state_hold_canceled "patron-1" "book-1" 50 =
      (.error (LibraryError.not_found ("book with id " ++
        (BookDto.from_entity sample_book).book_id ++ " for patron " ++
        (PatronDto.from_party sample_party).patron_id ++ " not found")),
        sample_state_hold_canceled) :=
  ⟨C8_status_defaulting_and_terminal_lookups.2.2.1 sample_state_returned "patron-1" "book-1"
    50 (PatronDto.from_party sample_party) (BookDto.from_entity sample_book) (by rfl) (by rfl)
    (by decide),
   (C8_status_defaulting_and_terminal_lookups.2.2.2 sample_state_hold_canceled "patron-1"
    "book-1" 50 (PatronDto.from_party sample_party) (BookDto.from_entity sample_book)
    (by rfl) (by rfl) (by decide)).1⟩

/-! ## C4 -/

/-- Case analysis of the hold placement: either the stored holds are
    untouched (failure paths) or the fresh OnHold row is appended after the
    conditional create verified its id is unused. -/
lemma hold_place_holds_cases (br : String) (st : LibraryState) (p b f : String) (now : Int) :
    (HoldServiceImpl.hold br st p b f now).2.holds = st.holds ∨
    ∃ patron book,
      (st.holds.any fun e =>
        e.hold_id = (hold_from_patron_book br patron book f now).hold_id) = false ∧
      (HoldServiceImpl.hold br st p b f now).2.holds =
        st.holds ++ [hold_from_patron_book br patron book f now] := by
  cases hp : PatronServiceImpl.find_patron_by_id st.parties p with
  | error e => left; simp [HoldServiceImpl.hold, hp]
  | ok patron =>
    cases hb : CatalogServiceImpl.find_book_by_id st.books b with
    | error e => left; simp [HoldServiceImpl.hold, hp, hb]
    | ok book =>
      by_cases hsa : book.book_status ≠ BookStatus.Available
      · left; simp [HoldServiceImpl.hold, hp, hb, hsa]
      · by_cases hrr : (book.restricted && patron.is_regular) = true
        · left; simp [HoldServiceImpl.hold, hp, hb, hsa, hrr]
        · by_cases hany : (st.holds.any fun e =>
            e.hold_id = (hold_from_patron_book br patron book f now).hold_id) = true
          · left
            simp [HoldServiceImpl.hold, hp, hb, hsa, hrr, DDBHoldRepository.create,
              ddb_create, hany]
          · right
            refine ⟨patron, book, by simpa using hany, ?_⟩
            simp [HoldServiceImpl.hold, hp, hb, hsa, hrr, DDBHoldRepository.create,
              ddb_create, hany]

/-- Case analysis of cancel: either the stored holds are untouched or the
    first OnHold match is rewritten by the conditional update. -/
lemma hold_cancel_holds_cases (st : LibraryState) (p b : String) (now : Int)
    (hwf : holds_wf st.holds) :
    (HoldServiceImpl.cancel st p b now).2.holds = st.holds ∨
    ∃ first0, first0 ∈ st.holds ∧ first0.hold_status = HoldStatus.OnHold ∧
      (HoldServiceImpl.cancel st p b now).2.holds =
        st.holds.map fun e =>
          if e.hold_id = first0.hold_id then
            apply_hold_update_expr e
              { first0 with hold_status := HoldStatus.Canceled, canceled_at := some now } now
          else e := by
  cases hp : PatronServiceImpl.find_patron_by_id st.parties p with
  | error e => left; simp [HoldServiceImpl.cancel, hp]
  | ok patron =>
    cases hb : CatalogServiceImpl.find_book_by_id st.books b with
    | error e => left; simp [HoldServiceImpl.cancel, hp, hb]
    | ok book =>
      cases hh : (DDBHoldRepository.query st.holds
          [("patron_id", patron.patron_id), ("book_id", book.book_id)] 10).records.head? with
      | none => left; simp [HoldServiceImpl.cancel, hp, hb, hh]
      | some first0 =>
        have hmem := hold_query_two_key_mem st.holds patron.patron_id book.book_id 10 first0
          (List.mem_of_mem_head? hh)
        have hupd := ddb_update_success (fun x : HoldEntity => x.hold_id) (fun x => x.version)
          apply_hold_update_expr st.holds
          { first0 with hold_status := HoldStatus.Canceled, canceled_at := some now } first0
          now hwf.2 hmem.1 rfl rfl
        right
        refine ⟨first0, hmem.1, hmem.2.1, ?_⟩
        simp [HoldServiceImpl.cancel, hp, hb, hh, DDBHoldRepository.update, hupd]

/-- Case analysis of the hold-to-checkout conversion, as for cancel. -/
lemma hold_convert_holds_cases (st : LibraryState) (p b : String) (now : Int)
    (hwf : holds_wf st.holds) :
    (HoldServiceImpl.checkout st p b now).2.holds = st.holds ∨
    ∃ first0, first0 ∈ st.holds ∧ first0.hold_status = HoldStatus.OnHold ∧
      (HoldServiceImpl.checkout st p b now).2.holds =
        st.holds.map fun e =>
          if e.hold_id = first0.hold_id then
            apply_hold_update_expr e
              { first0 with
                hold_status := HoldStatus.CheckedOut, checked_out_at := some now } now
          else e := by
  cases hp : PatronServiceImpl.find_patron_by_id st.parties p with
  | error e => left; simp [HoldServiceImpl.checkout, hp]
  | ok patron =>
    cases hb : CatalogServiceImpl.find_book_by_id st.books b with
    | error e => left; simp [HoldServiceImpl.checkout, hp, hb]
    | ok book =>
      cases hh : (DDBHoldRepository.query st.holds
          [("patron_id", patron.patron_id), ("book_id", book.book_id)] 10).records.head? with
      | none => left; simp [HoldServiceImpl.checkout, hp, hb, hh]
      | some first0 =>
        have hmem := hold_query_two_key_mem st.holds patron.patron_id book.book_id 10 first0
          (List.mem_of_mem_head? hh)
        have hupd := ddb_update_success (fun x : HoldEntity => x.hold_id) (fun x => x.version)
          apply_hold_update_expr st.holds
          { first0 with hold_status := HoldStatus.CheckedOut, checked_out_at := some now }
          first0 now hwf.2 hmem.1 rfl rfl
        right
        refine ⟨first0, hmem.1, hmem.2.1, ?_⟩
        simp [HoldServiceImpl.checkout, hp, hb, hh, DDBHoldRepository.update, hupd]

/-- C4: every hold is created in OnHold status with both terminal markers
    null; every hold command preserves the table invariant that OnHold rows
    carry no terminal marker, Canceled rows carry exactly canceled_at,
    CheckedOut rows carry exactly checked_out_at (mutually exclusive
    markers), together with key uniqueness; no command ever mutates a hold
    already in a terminal status (the row survives unchanged); a successful
    cancel returns the hold with status Canceled, canceled_at set and
    checked_out_at still null; a successful conversion returns it with
    status CheckedOut, checked_out_at set and canceled_at still null. -/
theorem C4_hold_lifecycle :
    (∀ (br : String) (patron : PatronDto) (book : BookDto) (f : String) (now : Int),
      (hold_from_patron_book br patron book f now).hold_status = HoldStatus.OnHold ∧
      (hold_from_patron_book br patron book f now).canceled_at = none ∧
      (hold_from_patron_book br patron book f now).checked_out_at = none) ∧
    (∀ (st : LibraryState) (op : HoldOp), holds_wf st.holds →
      holds_wf (hold_step st op).holds) ∧
    (∀ (st : LibraryState) (op : HoldOp) (h : HoldEntity), holds_wf st.holds →
      h ∈ st.holds →
      (h.hold_status = HoldStatus.Canceled ∨ h.hold_status = HoldStatus.CheckedOut) →
      h ∈ (hold_step st op).holds) ∧
    (∀ (st : LibraryState) (p b : String) (now : Int) (dto : HoldDto) (st2 : LibraryState),
      holds_wf st.holds → HoldServiceImpl.cancel st p b now = (.ok dto, st2) →
      dto.hold_status = HoldStatus.Canceled ∧ dto.canceled_at = some now ∧
        dto.checked_out_at = none) ∧
    (∀ (st : LibraryState) (p b : String) (now : Int) (dto : HoldDto) (st2 : LibraryState),
      holds_wf st.holds → HoldServiceImpl.checkout st p b now = (.ok dto, st2) →
      dto.hold_status = HoldStatus.CheckedOut ∧ dto.checked_out_at = some now ∧
        dto.canceled_at = none) := by
  refine ⟨fun br patron book f now => ⟨rfl, rfl, rfl⟩, ?_, ?_, ?_, ?_⟩
  · intro st op hwf
    cases op with
    | place br p b f now =>
      rcases hold_place_holds_cases br st p b f now with hcase | ⟨patron, book, hany, hcase⟩
      · rw [show (hold_step st (HoldOp.place br p b f now)).holds =
          (HoldServiceImpl.hold br st p b f now).2.holds from rfl, hcase]
        exact hwf
      · rw [show (hold_step st (HoldOp.place br p b f now)).holds =
          (HoldServiceImpl.hold br st p b f now).2.holds from rfl, hcase]
        constructor
        · intro h hh
          rcases List.mem_append.mp hh with hh2 | hh2
          · exact hwf.1 h hh2
          · rw [List.mem_singleton.mp hh2]
            exact ⟨fun _ => ⟨rfl, rfl⟩, by simp [hold_from_patron_book],
              by simp [hold_from_patron_book]⟩
        · rw [List.map_append]
          refine List.nodup_append.mpr ⟨hwf.2, List.nodup_singleton _, ?_⟩
          intro a ha hb
          simp only [List.map_cons, List.map_nil, List.mem_singleton] at hb
          obtain ⟨e, he, hea⟩ := List.mem_map.mp ha
          rw [List.any_eq_false] at hany
          have hne : ¬(e.hold_id = (hold_from_patron_book br patron book f now).hold_id) := by
            simpa using hany e he
          exact hne (hea.trans hb)
    | cancel p b now =>
      rcases hold_cancel_holds_cases st p b now hwf with hcase | ⟨first0, hmem, hstat, hcase⟩
      · rw [show (hold_step st (HoldOp.cancel p b now)).holds =
          (HoldServiceImpl.cancel st p b now).2.holds from rfl, hcase]
        exact hwf
      · rw [show (hold_step st (HoldOp.cancel p b now)).holds =
          (HoldServiceImpl.cancel st p b now).2.holds from rfl, hcase]
        have hco : first0.checked_out_at = none := ((hwf.1 first0 hmem).1 hstat).2
        constructor
        · intro h2 hh2
          obtain ⟨h, hh, rfl⟩ := List.mem_map.mp hh2
          by_cases hid : h.hold_id = first0.hold_id
          · have heq : h = first0 := List.inj_on_of_nodup_map hwf.2 hh hmem hid
            subst heq
            rw [if_pos rfl]
            exact ⟨by simp [apply_hold_update_expr], by simp [apply_hold_update_expr, hco],
              by simp [apply_hold_update_expr]⟩
          · rw [if_neg hid]
            exact hwf.1 h hh
        · have hids : (st.holds.map fun e =>
              if e.hold_id = first0.hold_id then
                apply_hold_update_expr e
                  { first0 with
                    hold_status := HoldStatus.Canceled, canceled_at := some now } now
              else e).map (fun h => h.hold_id) = st.holds.map fun h => h.hold_id := by
            rw [List.map_map]
            refine List.map_congr_left ?_
            intro a ha
            by_cases hid : a.hold_id = first0.hold_id <;>
              simp [hid, apply_hold_update_expr]
          rw [hids]
          exact hwf.2
    | convert p b now =>
      rcases hold_convert_holds_cases st p b now hwf with hcase | ⟨first0, hmem, hstat, hcase⟩
      · rw [show (hold_step st (HoldOp.convert p b now)).holds =
          (HoldServiceImpl.checkout st p b now).2.holds from rfl, hcase]
        exact hwf
      · rw [show (hold_step st (HoldOp.convert p b now)).holds =
          (HoldServiceImpl.checkout st p b now).2.holds from rfl, hcase]
        have hca : first0.canceled_at = none := ((hwf.1 first0 hmem).1 hstat).1
        constructor
        · intro h2 hh2
          obtain ⟨h, hh, rfl⟩ := List.mem_map.mp hh2
          by_cases hid : h.hold_id = first0.hold_id
          · have heq : h = first0 := List.inj_on_of_nodup_map hwf.2 hh hmem hid
            subst heq
            rw [if_pos rfl]
            exact ⟨by simp [apply_hold_update_expr], by simp [apply_hold_update_expr],
              by simp [apply_hold_update_expr, hca]⟩
          · rw [if_neg hid]
            exact hwf.1 h hh
        · have hids : (st.holds.map fun e =>
              if e.hold_id = first0.hold_id then
                apply_hold_update_expr e
                  { first0 with
                    hold_status := HoldStatus.CheckedOut, checked_out_at := some now } now
              else e).map (fun h => h.hold_id) = st.holds.map fun h => h.hold_id := by
            rw [List.map_map]
            refine List.map_congr_left ?_
            intro a ha
            by_cases hid : a.hold_id = first0.hold_id <;>
              simp [hid, apply_hold_update_expr]
          rw [hids]
          exact hwf.2
  · intro st op h hwf hh hterm
    cases op with
    | place br p b f now =>
      rcases hold_place_holds_cases br st p b f now with hcase | ⟨patron, book, hany, hcase⟩
      · rw [show (hold_step st (HoldOp.place br p b f now)).holds =
          (HoldServiceImpl.hold br st p b f now).2.holds from rfl, hcase]
        exact hh
      · rw [show (hold_step st (HoldOp.place br p b f now)).holds =
          (HoldServiceImpl.hold br st p b f now).2.holds from rfl, hcase]
        exact List.mem_append_left _ hh
    | cancel p b now =>
      rcases hold_cancel_holds_cases st p b now hwf with hcase | ⟨first0, hmem, hstat, hcase⟩
      · rw [show (hold_step st (HoldOp.cancel p b now)).holds =
          (HoldServiceImpl.cancel st p b now).2.holds from rfl, hcase]
        exact hh
      · rw [show (hold_step st (HoldOp.cancel p b now)).holds =
          (HoldServiceImpl.cancel st p b now).2.holds from rfl, hcase]
        have hid : ¬(h.hold_id = first0.hold_id) := by
          intro hcl
          have heq : h = first0 := List.inj_on_of_nodup_map hwf.2 hh hmem hcl
          rcases hterm with ht | ht <;> rw [heq, hstat] at ht <;> cases ht
        refine List.mem_map.mpr ⟨h, hh, ?_⟩
        rw [if_neg hid]
    | convert p b now =>
      rcases hold_convert_holds_cases st p b now hwf with hcase | ⟨first0, hmem, hstat, hcase⟩
      · rw [show (hold_step st (HoldOp.convert p b now)).holds =
          (HoldServiceImpl.checkout st p b now).2.holds from rfl, hcase]
        exact hh
      · rw [show (hold_step st (HoldOp.convert p b now)).holds =
          (HoldServiceImpl.checkout st p b now).2.holds from rfl, hcase]
        have hid : ¬(h.hold_id = first0.hold_id) := by
          intro hcl
          have heq : h = first0 := List.inj_on_of_nodup_map hwf.2 hh hmem hcl
          rcases hterm with ht | ht <;> rw [heq, hstat] at ht <;> cases ht
        refine List.mem_map.mpr ⟨h, hh, ?_⟩
        rw [if_neg hid]
  · intro st p b now dto st2 hwf hc
    cases hp : PatronServiceImpl.find_patron_by_id st.parties p with
    | error e => simp [HoldServiceImpl.cancel, hp] at hc
    | ok patron =>
      cases hb : CatalogServiceImpl.find_book_by_id st.books b with
      | error e => simp [HoldServiceImpl.cancel, hp, hb] at hc
      | ok book =>
        cases hh : (DDBHoldRepository.query st.holds
            [("patron_id", patron.patron_id), ("book_id", book.book_id)] 10).records.head? with
        | none => simp [HoldServiceImpl.cancel, hp, hb, hh] at hc
        | some first0 =>
          have hmem := hold_query_two_key_mem st.holds patron.patron_id book.book_id 10
            first0 (List.mem_of_mem_head? hh)
          have hco : first0.checked_out_at = none := ((hwf.1 first0 hmem.1).1 hmem.2.1).2
          cases hu : DDBHoldRepository.update st.holds
              { first0 with hold_status := HoldStatus.Canceled, canceled_at := some now }
              now with
          | error e => simp [HoldServiceImpl.cancel, hp, hb, hh, hu] at hc
          | ok pr =>
            obtain ⟨holds2, cnt⟩ := pr
            simp only [HoldServiceImpl.cancel, hp, hb, hh, hu, Prod.mk.injEq,
              Except.ok.injEq] at hc
            rw [← hc.1]
            exact ⟨rfl, rfl, hco⟩
  · intro st p b now dto st2 hwf hc
    cases hp : PatronServiceImpl.find_patron_by_id st.parties p with
    | error e => simp [HoldServiceImpl.checkout, hp] at hc
    | ok patron =>
      cases hb : CatalogServiceImpl.find_book_by_id st.books b with
      | error e => simp [HoldServiceImpl.checkout, hp, hb] at hc
      | ok book =>
        cases hh : (DDBHoldRepository.query st.holds
            [("patron_id", patron.patron_id), ("book_id", book.book_id)] 10).records.head? with
        | none => simp [HoldServiceImpl.checkout, hp, hb, hh] at hc
        | some first0 =>
          have hmem := hold_query_two_key_mem st.holds patron.patron_id book.book_id 10
            first0 (List.mem_of_mem_head? hh)
          have hca : first0.canceled_at = none := ((hwf.1 first0 hmem.1).1 hmem.2.1).1
          cases hu : DDBHoldRepository.update st.holds
              { first0 with hold_status := HoldStatus.CheckedOut, checked_out_at := some now }
              now with
          | error e => simp [HoldServiceImpl.checkout, hp, hb, hh, hu] at hc
          | ok pr =>
            obtain ⟨holds2, cnt⟩ := pr
            simp only [HoldServiceImpl.checkout, hp, hb, hh, hu, Prod.mk.injEq,
              Except.ok.injEq] at hc
            rw [← hc.1]
            exact ⟨rfl, rfl, hca⟩

/-- Witness for C4 at a concrete cancel: canceling the OnHold sample row at
    time 7 yields status Canceled, canceled_at 7 and a null checked_out_at. -/
theorem C4_hold_lifecycle_witness :
    sample_canceled_dto.hold_status = HoldStatus.Canceled ∧
    sample_canceled_dto.canceled_at = some 7 ∧
    sample_canceled_dto.checked_out_at = none :=
  C4_hold_lifecycle.2.2.2.1 sample_state_on_hold "patron-1" "book-1" 7 sample_canceled_dto
    (HoldServiceImpl.cancel sample_state_on_hold "patron-1" "book-1" 7).2
    (by
      refine ⟨?_, by simp [sample_state_on_hold, sample_state]⟩
      intro h hh
      simp only [sample_state_on_hold, sample_state, List.mem_singleton] at hh
      rw [hh]
      exact ⟨fun _ => ⟨rfl, rfl⟩, by simp [sample_hold], by simp [sample_hold]⟩)
    (by rfl)

end LMS
